import Mathlib

/-!
Verification development for the regime/allocation/backtest core of
`GitDHY/strategy` (`src/app.py`).

Modelling conventions:

* Python floats are idealised as exact rationals (`ℚ`); all comparisons and
  arithmetic are therefore exact.
* The asset universe of the allocation engine is the fixed 8-key dictionary
  `IWY, WTMF, LVHI, G3B.SI, MBH.SI, GSD.SI, SRT.SI, AJBU.SI` used by every
  weight dictionary in `app.py`; a dictionary is modelled as the structure
  `AssetMap ℚ` (a key that is absent reads as `0` via `dict.get(k, 0)`, which
  is exactly how the source reads weights, so presence/absence of a key with
  value `0` is not observable in the modelled code paths).  `TLT`/`SPY`
  appear in the price table of the backtest only for benchmark series, which
  no claim mentions, and are not modelled.
* `None` optional signals are modelled by `Option`.  A pandas column whose
  values are all `NaN` behaves in the modelled code paths exactly like an
  absent value (every comparison with `NaN` is false and the source guards
  every use), so `NaN` is also modelled as `none`.
* Sequential in-place mutation of the target dictionary by the tilt passes
  is modelled by function composition: each pass takes the map and returns
  the updated map, in the exact order of `get_target_percentages`.
-/

namespace Strategy

/-- Fixed 8-asset weight/flag record standing for the Python dict keyed by
`IWY, WTMF, LVHI, G3B.SI, MBH.SI, GSD.SI, SRT.SI, AJBU.SI`. -/
structure AssetMap (α : Type) where
  iwy : α
  wtmf : α
  lvhi : α
  g3b : α
  mbh : α
  gsd : α
  srt : α
  ajbu : α
deriving DecidableEq, Repr

def zeroW : AssetMap ℚ := ⟨0, 0, 0, 0, 0, 0, 0, 0⟩

def allFalse : AssetMap Bool := ⟨false, false, false, false, false, false, false, false⟩

def noneMom : AssetMap (Option ℚ) := ⟨none, none, none, none, none, none, none, none⟩

/-- Sum of all eight weights (the implicit cash leg is `1 - sumW`). -/
def sumW (w : AssetMap ℚ) : ℚ :=
  w.iwy + w.wtmf + w.lvhi + w.g3b + w.mbh + w.gsd + w.srt + w.ajbu

/-! Module-level tuning constants of `app.py` (v1.6/v1.7 values). -/

def VIX_BOOST_LO : ℚ := 14
def VIX_CUT_HI : ℚ := 23
def VIX_PANIC : ℚ := 28
def YIELD_CURVE_CUTOFF : ℚ := -35/100
def TARGET_VOL : ℚ := 14/100
def VOL_LOOKBACK : ℕ := 20
def VOL_SCALAR_MAX : ℚ := 18/10
def VOL_SCALAR_MIN : ℚ := 4/10
def DRAWDOWN_STOP_LOSS : ℚ := -12/100
def DRAWDOWN_REDUCE_RATIO : ℚ := 4/10
def DRAWDOWN_RECOVERY_THRESHOLD : ℚ := -6/100
def VIX_SMOOTH_START : ℚ := 18
def VIX_SMOOTH_END : ℚ := 32
def VIX_MAX_REDUCTION : ℚ := 35/100
def SIGNAL_CONFIRM_DAYS : ℕ := 2
def REBALANCE_THRESHOLD : ℚ := 6/100
def STATE_TRANSITION_DAYS : ℕ := 2
def MOMENTUM_STRONG_THRESHOLD : ℚ := 103/100
def MOMENTUM_WEAK_THRESHOLD : ℚ := 93/100
def MOMENTUM_NEUTRAL_REDUCTION : ℚ := 8/100
def SAHM_EARLY_WARNING_LO : ℚ := 35/100
def SAHM_EARLY_WARNING_HI : ℚ := 50/100
def SAHM_REDUCTION_RATE : ℚ := 40/100
def YC_UNINVERT_REDUCTION : ℚ := 15/100
def VIX_MEAN_REVERSION_PEAK : ℚ := 23
def VIX_MEAN_REVERSION_RATIO : ℚ := 75/100
def VIX_MEAN_REVERSION_BOOST : ℚ := 12/100
def CORR_MID_THRESHOLD : ℚ := 18/100
def CORR_HIGH_THRESHOLD : ℚ := 35/100
def CORR_MAX_REALLOC : ℚ := 12/100
def TREND_MA_SHORT : ℕ := 50
def TREND_MA_LONG : ℕ := 200
def WEAK_BEAR_REDUCTION : ℚ := 20/100
def STRONG_BEAR_REDUCTION : ℚ := 55/100
def MARKET_BREADTH_LOW : ℚ := 25/100
def MARKET_BREADTH_MID : ℚ := 45/100
def BREADTH_LOW_REDUCTION : ℚ := 10/100
def BREADTH_MID_REDUCTION : ℚ := 3/100
def TREND_BOOST_THRESHOLD : ℚ := 108/100
def TREND_BOOST_AMOUNT : ℚ := 8/100
def TREND_BOOST_VIX_MAX : ℚ := 18
def EXTREME_CONFIRM_DAYS : ℕ := 1
def VIX_GROWTH_TO_VALUE_START : ℚ := 22
def VIX_GROWTH_TO_VALUE_FULL : ℚ := 35
def GROWTH_TO_VALUE_MAX_SHIFT : ℚ := 20/100
def TREND_STRONG_BULL : ℚ := 110/100
def TREND_MILD_BULL : ℚ := 103/100
def TREND_MILD_BEAR : ℚ := 97/100
def TREND_STRONG_BEAR_LINE : ℚ := 90/100
def BULL_IWY_BOOST : ℚ := 10/100
def BEAR_WTMF_BOOST : ℚ := 15/100
def VALUE_OUTPERFORM_THRESHOLD : ℚ := 3/100
def VALUE_UNDERPERFORM_THRESHOLD : ℚ := -5/100
def VALUE_ROTATION_AMOUNT : ℚ := 8/100

/-- The four `(vix lo, vix hi, IWY weight, WTMF weight)` tiers of
`CAUTIOUS_VOL_VIX_TIERS`. -/
def CAUTIOUS_VOL_TIER1 : ℚ × ℚ × ℚ × ℚ := (20, 25, 40/100, 20/100)
def CAUTIOUS_VOL_TIER2 : ℚ × ℚ × ℚ × ℚ := (25, 30, 30/100, 30/100)
def CAUTIOUS_VOL_TIER3 : ℚ × ℚ × ℚ × ℚ := (30, 40, 20/100, 40/100)
def CAUTIOUS_VOL_TIER4 : ℚ × ℚ × ℚ × ℚ := (40, 999, 10/100, 50/100)

/-- The `(drawdown threshold, recovery position ratio)` list
`STOP_LOSS_RECOVERY_STAGES`, most severe threshold first. -/
def STOP_LOSS_RECOVERY_STAGES : List (ℚ × ℚ) :=
  [(-12/100, 55/100), (-8/100, 75/100), (-5/100, 90/100), (-2/100, 1)]

/-- `base_allocation(s, value_regime, vix)`: the fixed base weight table, one
map per regime; `CAUTIOUS_VOL` is tiered by the VIX level; any string that is
not one of the five special regimes falls through to the final `NEUTRAL`
return. -/
def base_allocation (s : String) (value_regime : Bool) (vix : Option ℚ) : AssetMap ℚ :=
  if s = "INFLATION_SHOCK" then
    { iwy := 0, wtmf := 50/100, lvhi := 15/100,
      g3b := 0, mbh := 0, gsd := 25/100, srt := 0, ajbu := 10/100 }
  else if s = "DEFLATION_RECESSION" then
    { iwy := 5/100, wtmf := 20/100, lvhi := 5/100,
      g3b := 0, mbh := 40/100, gsd := 25/100, srt := 0, ajbu := 5/100 }
  else if s = "EXTREME_ACCUMULATION" then
    { iwy := 85/100, wtmf := 0, lvhi := 0,
      g3b := 5/100, mbh := 0, gsd := 0, srt := 5/100, ajbu := 5/100 }
  else if s = "CAUTIOUS_TREND" then
    let growth_w : ℚ := if value_regime then 8/100 else 15/100
    let value_w : ℚ := if value_regime then 32/100 else 25/100
    let wtmf_w : ℚ := if value_regime then 18/100 else 20/100
    { iwy := growth_w, wtmf := wtmf_w, lvhi := value_w,
      g3b := 8/100, mbh := 10/100, gsd := 8/100, srt := 5/100, ajbu := 4/100 }
  else if s = "CAUTIOUS_VOL" then
    let dflt : ℚ × ℚ × ℚ := (40/100, 20/100, 15/100)
    let tiered : ℚ × ℚ × ℚ :=
      match vix with
      | none => dflt
      | some v =>
        if CAUTIOUS_VOL_TIER1.1 ≤ v ∧ v < CAUTIOUS_VOL_TIER1.2.1 then
          (CAUTIOUS_VOL_TIER1.2.2.1, CAUTIOUS_VOL_TIER1.2.2.2, 15/100)
        else if CAUTIOUS_VOL_TIER2.1 ≤ v ∧ v < CAUTIOUS_VOL_TIER2.2.1 then
          (CAUTIOUS_VOL_TIER2.2.2.1, CAUTIOUS_VOL_TIER2.2.2.2, 15/100)
        else if CAUTIOUS_VOL_TIER3.1 ≤ v ∧ v < CAUTIOUS_VOL_TIER3.2.1 then
          (CAUTIOUS_VOL_TIER3.2.2.1, CAUTIOUS_VOL_TIER3.2.2.2, 12/100)
        else if CAUTIOUS_VOL_TIER4.1 ≤ v then
          (CAUTIOUS_VOL_TIER4.2.2.1, CAUTIOUS_VOL_TIER4.2.2.2, 10/100)
        else dflt
    { iwy := tiered.1, wtmf := tiered.2.1, lvhi := tiered.2.2,
      g3b := 3/100, mbh := 5/100, gsd := 5/100, srt := 5/100, ajbu := 5/100 }
  else
    let growth_w : ℚ := if value_regime then 55/100 else 68/100
    let value_w : ℚ := if value_regime then 20/100 else 5/100
    let wtmf_w : ℚ := 0
    { iwy := growth_w, wtmf := wtmf_w, lvhi := value_w,
      g3b := 5/100, mbh := 5/100, gsd := 3/100, srt := 7/100, ajbu := 7/100 }

/-- `apply_vix_adjustments(targets, state, vix)`: VIX-driven growth/value/WTMF
rotation in the `NEUTRAL` regime; the `CAUTIOUS_VOL` branch of the source is a
`pass`. -/
def apply_vix_adjustments (targets : AssetMap ℚ) (state : String) (vix : Option ℚ) :
    AssetMap ℚ :=
  match vix with
  | none => targets
  | some v =>
    if state = "NEUTRAL" then
      if v < VIX_BOOST_LO then
        let wtmf_amt := targets.wtmf
        let mbh_amt := targets.mbh * (8/10)
        let gsd_amt := targets.gsd * (1/2)
        let total_boost := wtmf_amt + mbh_amt + gsd_amt
        { targets with
      wtmf := 0
      mbh := targets.mbh - mbh_amt
      gsd := targets.gsd - gsd_amt
      iwy := targets.iwy + total_boost }
      else if v > VIX_GROWTH_TO_VALUE_START then
        let shift_ratio :=
          min ((v - VIX_GROWTH_TO_VALUE_START) /
               (VIX_GROWTH_TO_VALUE_FULL - VIX_GROWTH_TO_VALUE_START)) 1
        let shift_amt := min targets.iwy (GROWTH_TO_VALUE_MAX_SHIFT * shift_ratio)
        if shift_amt > 0 then
          { targets with
      iwy := targets.iwy - shift_amt
      lvhi := targets.lvhi + shift_amt * (7/10)
      wtmf := targets.wtmf + shift_amt * (3/10) }
        else targets
      else targets
    else targets

/-- `apply_yield_curve_guard(targets, state, yield_curve)`: in the recession
and cautious-trend regimes, a deeply inverted curve moves 70% of the bond
weight into the hedge instrument. -/
def apply_yield_curve_guard (targets : AssetMap ℚ) (state : String)
    (yield_curve : Option ℚ) : AssetMap ℚ :=
  if ¬ (state = "DEFLATION_RECESSION" ∨ state = "CAUTIOUS_TREND") then targets
  else
    match yield_curve with
    | none => targets
    | some yc =>
      if yc ≥ YIELD_CURVE_CUTOFF then targets
      else if targets.mbh > 0 then
        let move_amt := targets.mbh * (7/10)
        { targets with
      mbh := targets.mbh - move_amt
      wtmf := targets.wtmf + move_amt }
      else targets

/-- Destination of a cut weight in the trend filter: `IWY` in `NEUTRAL` when
`IWY` is not itself trending down, else `WTMF`. -/
def trendDest (state : String) (asset_trends : AssetMap Bool) (w : AssetMap ℚ)
    (amt : ℚ) : AssetMap ℚ :=
  if state = "NEUTRAL" then
    if asset_trends.iwy then { w with wtmf := w.wtmf + amt }
    else { w with iwy := w.iwy + amt }
  else { w with wtmf := w.wtmf + amt }

/-- One loop iteration of `apply_trend_filters` for the `G3B.SI` key. -/
def trendFilterG3b (state : String) (tr : AssetMap Bool) (w : AssetMap ℚ) : AssetMap ℚ :=
  if w.g3b > 0 ∧ tr.g3b then trendDest state tr { w with g3b := 0 } w.g3b else w

/-- One loop iteration of `apply_trend_filters` for the `LVHI` key. -/
def trendFilterLvhi (state : String) (tr : AssetMap Bool) (w : AssetMap ℚ) : AssetMap ℚ :=
  if w.lvhi > 0 ∧ tr.lvhi then trendDest state tr { w with lvhi := 0 } w.lvhi else w

/-- One loop iteration of `apply_trend_filters` for the `MBH.SI` key. -/
def trendFilterMbh (state : String) (tr : AssetMap Bool) (w : AssetMap ℚ) : AssetMap ℚ :=
  if w.mbh > 0 ∧ tr.mbh then trendDest state tr { w with mbh := 0 } w.mbh else w

/-- One loop iteration of `apply_trend_filters` for the `GSD.SI` key. -/
def trendFilterGsd (state : String) (tr : AssetMap Bool) (w : AssetMap ℚ) : AssetMap ℚ :=
  if w.gsd > 0 ∧ tr.gsd then trendDest state tr { w with gsd := 0 } w.gsd else w

/-- One loop iteration of `apply_trend_filters` for the `SRT.SI` key. -/
def trendFilterSrt (state : String) (tr : AssetMap Bool) (w : AssetMap ℚ) : AssetMap ℚ :=
  if w.srt > 0 ∧ tr.srt then trendDest state tr { w with srt := 0 } w.srt else w

/-- One loop iteration of `apply_trend_filters` for the `AJBU.SI` key. -/
def trendFilterAjbu (state : String) (tr : AssetMap Bool) (w : AssetMap ℚ) : AssetMap ℚ :=
  if w.ajbu > 0 ∧ tr.ajbu then trendDest state tr { w with ajbu := 0 } w.ajbu else w

/-- `apply_trend_filters(targets, state, asset_trends)`: each trending-down
asset in the checked list is zeroed and its weight moved to `IWY` (in
`NEUTRAL`, if `IWY` is not itself trending down) or to `WTMF`.  The six
assets are visited in the source list order. -/
def apply_trend_filters (targets : AssetMap ℚ) (state : String)
    (asset_trends : AssetMap Bool) : AssetMap ℚ :=
  if state = "EXTREME_ACCUMULATION" then targets
  else
    trendFilterAjbu state asset_trends (trendFilterSrt state asset_trends
      (trendFilterGsd state asset_trends (trendFilterMbh state asset_trends
        (trendFilterLvhi state asset_trends (trendFilterG3b state asset_trends targets)))))

/-- `apply_iwy_safety_valve(targets, state, asset_trends, vix)`: cut 50%
(80% when VIX is above the panic level) of a trending-down `IWY` into
`WTMF`. -/
def apply_iwy_safety_valve (targets : AssetMap ℚ) (state : String)
    (asset_trends : AssetMap Bool) (vix : Option ℚ) : AssetMap ℚ :=
  if state = "EXTREME_ACCUMULATION" ∨ targets.iwy ≤ 0 then targets
  else if asset_trends.iwy then
    let severity : ℚ :=
      match vix with
      | some v => if v > VIX_PANIC then 8/10 else 5/10
      | none => 5/10
    let cut_amount := targets.iwy * severity
    { targets with
      iwy := targets.iwy - cut_amount
      wtmf := targets.wtmf + cut_amount }
  else targets

/-- `apply_gold_filter(targets, gold_bear)`: a gold bear signal moves the
whole gold weight into `WTMF`. -/
def apply_gold_filter (targets : AssetMap ℚ) (gold_bear : Bool) : AssetMap ℚ :=
  if gold_bear ∧ targets.gsd > 0 then
    let cut_amount := targets.gsd
    { targets with
      gsd := targets.gsd - cut_amount
      wtmf := targets.wtmf + cut_amount }
  else targets

/-- A momentum-score dictionary is empty (Python-falsy) exactly when every
asset key is absent. -/
def momEmpty (m : AssetMap (Option ℚ)) : Bool :=
  m.iwy.isNone && m.wtmf.isNone && m.lvhi.isNone && m.g3b.isNone &&
  m.mbh.isNone && m.gsd.isNone && m.srt.isNone && m.ajbu.isNone

/-- `apply_momentum_intensity(targets, state, momentum_scores)`: in the
neutral momentum band, move 8% of the `IWY` weight into `WTMF`. -/
def apply_momentum_intensity (targets : AssetMap ℚ) (state : String)
    (momentum_scores : AssetMap (Option ℚ)) : AssetMap ℚ :=
  if state = "EXTREME_ACCUMULATION" ∨ momEmpty momentum_scores then targets
  else
    match momentum_scores.iwy with
    | none => targets
    | some iwy_score =>
      if targets.iwy > 0 then
        if iwy_score < MOMENTUM_WEAK_THRESHOLD - 1 then targets
        else if iwy_score < MOMENTUM_STRONG_THRESHOLD - 1 then
          let reduction := targets.iwy * MOMENTUM_NEUTRAL_REDUCTION
          { targets with
      iwy := targets.iwy - reduction
      wtmf := targets.wtmf + reduction }
        else targets
      else targets

/-- `apply_sahm_early_warning(targets, state, sahm)`: in the 0.35–0.50 Sahm
band, linearly move up to 40% of `IWY` into `WTMF`. -/
def apply_sahm_early_warning (targets : AssetMap ℚ) (state : String)
    (sahm : Option ℚ) : AssetMap ℚ :=
  if ¬ (state = "NEUTRAL" ∨ state = "CAUTIOUS_VOL") then targets
  else
    match sahm with
    | none => targets
    | some sa =>
      if SAHM_EARLY_WARNING_LO ≤ sa ∧ sa < SAHM_EARLY_WARNING_HI then
        let reduction_pct :=
          (sa - SAHM_EARLY_WARNING_LO) / (SAHM_EARLY_WARNING_HI - SAHM_EARLY_WARNING_LO) *
            SAHM_REDUCTION_RATE
        let iwy_current := targets.iwy
        if iwy_current > 0 then
          let move_amt := iwy_current * reduction_pct
          { targets with
      iwy := iwy_current - move_amt
      wtmf := targets.wtmf + move_amt }
        else targets
      else targets

/-- `apply_yield_curve_uninvert_protection(targets, state, yield_curve,
yc_recently_inverted)`: a curve freshly back above zero after a deep
inversion moves 15% of `IWY` half into bonds, half into the hedge. -/
def apply_yield_curve_uninvert_protection (targets : AssetMap ℚ) (state : String)
    (yield_curve : Option ℚ) (yc_recently_inverted : Bool) : AssetMap ℚ :=
  if ¬ (state = "NEUTRAL" ∨ state = "CAUTIOUS_VOL") then targets
  else
    match yield_curve with
    | none => targets
    | some yc =>
      if yc > 0 ∧ yc_recently_inverted then
        let iwy_current := targets.iwy
        if iwy_current > 0 then
          let move_amt := iwy_current * YC_UNINVERT_REDUCTION
          { targets with
      iwy := iwy_current - move_amt
      mbh := targets.mbh + move_amt * (1/2)
      wtmf := targets.wtmf + move_amt * (1/2) }
        else targets
      else targets

/-- `apply_correlation_adjustment(targets, state, corr)`: rising equity-bond
correlation progressively moves bond weight into the hedge and gold. -/
def apply_correlation_adjustment (targets : AssetMap ℚ) (state : String)
    (corr : Option ℚ) : AssetMap ℚ :=
  if ¬ (state = "NEUTRAL" ∨ state = "CAUTIOUS_VOL" ∨ state = "CAUTIOUS_TREND") then targets
  else
    match corr with
    | none => targets
    | some c =>
      if c > CORR_MID_THRESHOLD then
        let adjustment_pct :=
          min ((c - CORR_MID_THRESHOLD) / (CORR_HIGH_THRESHOLD - CORR_MID_THRESHOLD)) 1
        let realloc := adjustment_pct * CORR_MAX_REALLOC
        let mbh_current := targets.mbh
        if mbh_current > realloc then
          { targets with
      mbh := mbh_current - realloc
      wtmf := targets.wtmf + realloc * (7/10)
      gsd := targets.gsd + realloc * (3/10) }
        else targets
      else targets

/-- `apply_dual_ma_trend_filter(targets, state, dual_ma_signals)`: strong or
weak bear signals per asset cut 55% resp. 20% of the weight into `WTMF`.
The source iterates the caller-built dict; the model visits the eight fixed
asset keys in universe order. -/
def apply_dual_ma_trend_filter (targets : AssetMap ℚ) (state : String)
    (dual_ma_signals : AssetMap (Option String)) : AssetMap ℚ :=
  if state = "EXTREME_ACCUMULATION" then targets
  else
    let cutOne := fun (w : ℚ) (sig : Option String) =>
      match sig with
      | none => (0 : ℚ)
      | some sg =>
        if w ≤ 0 then 0
        else if sg = "STRONG_BEAR" then w * STRONG_BEAR_REDUCTION
        else if sg = "WEAK_BEAR" then w * WEAK_BEAR_REDUCTION
        else 0
    let c1 := cutOne targets.iwy dual_ma_signals.iwy
    let w1 := { targets with
      iwy := targets.iwy - c1
      wtmf := targets.wtmf + c1 }
    let c2 := cutOne w1.wtmf dual_ma_signals.wtmf
    let w2 := { w1 with wtmf := w1.wtmf - c2 + c2 }
    let c3 := cutOne w2.lvhi dual_ma_signals.lvhi
    let w3 := { w2 with
      lvhi := w2.lvhi - c3
      wtmf := w2.wtmf + c3 }
    let c4 := cutOne w3.g3b dual_ma_signals.g3b
    let w4 := { w3 with
      g3b := w3.g3b - c4
      wtmf := w3.wtmf + c4 }
    let c5 := cutOne w4.mbh dual_ma_signals.mbh
    let w5 := { w4 with
      mbh := w4.mbh - c5
      wtmf := w4.wtmf + c5 }
    let c6 := cutOne w5.gsd dual_ma_signals.gsd
    let w6 := { w5 with
      gsd := w5.gsd - c6
      wtmf := w5.wtmf + c6 }
    let c7 := cutOne w6.srt dual_ma_signals.srt
    let w7 := { w6 with
      srt := w6.srt - c7
      wtmf := w6.wtmf + c7 }
    let c8 := cutOne w7.ajbu dual_ma_signals.ajbu
    { w7 with
      ajbu := w7.ajbu - c8
      wtmf := w7.wtmf + c8 }

/-- `apply_vix_mean_reversion(targets, state, vix, vix_recent_peak)`: once the
VIX has fallen at least 25% from a recent peak of at least 23, move 12% from
`WTMF` back into `IWY`. -/
def apply_vix_mean_reversion (targets : AssetMap ℚ) (state : String)
    (vix : Option ℚ) (vix_recent_peak : Option ℚ) : AssetMap ℚ :=
  if ¬ (state = "NEUTRAL" ∨ state = "CAUTIOUS_VOL") then targets
  else
    match vix, vix_recent_peak with
    | some v, some pk =>
      if pk ≥ VIX_MEAN_REVERSION_PEAK ∧ v < pk * VIX_MEAN_REVERSION_RATIO then
        let wtmf_current := targets.wtmf
        if wtmf_current > VIX_MEAN_REVERSION_BOOST then
          { targets with
      wtmf := wtmf_current - VIX_MEAN_REVERSION_BOOST
      iwy := targets.iwy + VIX_MEAN_REVERSION_BOOST }
        else targets
      else targets
    | _, _ => targets

/-- `apply_market_breadth_adjustment(targets, state, breadth_score)`: weak
market breadth cuts the high-risk equity sleeves into `WTMF`. -/
def apply_market_breadth_adjustment (targets : AssetMap ℚ) (state : String)
    (breadth_score : Option ℚ) : AssetMap ℚ :=
  if state = "EXTREME_ACCUMULATION" then targets
  else
    match breadth_score with
    | none => targets
    | some b =>
      let reduction : ℚ :=
        if b < MARKET_BREADTH_LOW then BREADTH_LOW_REDUCTION
        else if b < MARKET_BREADTH_MID then BREADTH_MID_REDUCTION
        else 0
      if reduction > 0 then
        let cut_iwy := if targets.iwy > 0 then targets.iwy * reduction else 0
        let cut_g3b := if targets.g3b > 0 then targets.g3b * reduction else 0
        let total_cut := cut_iwy + cut_g3b
        if total_cut > 0 then
          { targets with
      iwy := targets.iwy - cut_iwy
      g3b := targets.g3b - cut_g3b
      wtmf := targets.wtmf + total_cut }
        else targets
      else targets

/-- `apply_trend_boost(targets, state, momentum_scores, vix)`: trend-strength
driven growth/WTMF rotation. -/
def apply_trend_boost (targets : AssetMap ℚ) (state : String)
    (momentum_scores : AssetMap (Option ℚ)) (vix : Option ℚ) : AssetMap ℚ :=
  if ¬ (state = "NEUTRAL" ∨ state = "CAUTIOUS_VOL") ∨ momEmpty momentum_scores then targets
  else
    match vix with
    | none => targets
    | some v =>
      match momentum_scores.iwy with
      | none => targets
      | some iwy_score =>
        let price_vs_ma := iwy_score + 1
        if price_vs_ma ≥ TREND_STRONG_BULL then
          if v < 18 then
            let boost_from_wtmf := targets.wtmf
            let boost_from_lvhi := targets.lvhi * (3/10)
            let boost_from_mbh := targets.mbh * (1/2)
            let total_boost := boost_from_wtmf + boost_from_lvhi + boost_from_mbh
            { targets with
      wtmf := 0
      lvhi := targets.lvhi - boost_from_lvhi
      mbh := targets.mbh - boost_from_mbh
      iwy := targets.iwy + total_boost }
          else targets
        else if price_vs_ma ≥ TREND_MILD_BULL then
          let boost_amt := min targets.wtmf BULL_IWY_BOOST
          if boost_amt > 0 then
            { targets with
      wtmf := targets.wtmf - boost_amt
      iwy := targets.iwy + boost_amt }
          else targets
        else if price_vs_ma < TREND_MILD_BEAR then
          let shift_amt := min targets.iwy (BEAR_WTMF_BOOST * (6/10))
          if shift_amt > 0 then
            { targets with
      iwy := targets.iwy - shift_amt
      wtmf := targets.wtmf + shift_amt * (7/10)
      lvhi := targets.lvhi + shift_amt * (3/10) }
          else targets
        else targets

/-- `apply_value_rotation(targets, state, momentum_scores)`: relative-strength
driven rotation between `IWY` and `LVHI`. -/
def apply_value_rotation (targets : AssetMap ℚ) (state : String)
    (momentum_scores : AssetMap (Option ℚ)) : AssetMap ℚ :=
  if ¬ (state = "NEUTRAL" ∨ state = "CAUTIOUS_VOL") ∨ momEmpty momentum_scores then targets
  else
    match momentum_scores.iwy, momentum_scores.lvhi with
    | some iwy_score, some lvhi_score =>
      let relative_strength := lvhi_score - iwy_score
      if relative_strength > VALUE_OUTPERFORM_THRESHOLD then
        let shift_amt := min (targets.iwy * (3/10)) VALUE_ROTATION_AMOUNT
        if shift_amt > 0 then
          { targets with
      iwy := targets.iwy - shift_amt
      lvhi := targets.lvhi + shift_amt }
        else targets
      else if relative_strength < VALUE_UNDERPERFORM_THRESHOLD then
        let shift_amt := min (targets.lvhi * (1/2)) VALUE_ROTATION_AMOUNT
        if shift_amt > 0 then
          { targets with
      lvhi := targets.lvhi - shift_amt
      iwy := targets.iwy + shift_amt }
        else targets
      else targets
    | _, _ => targets

/-- `get_target_percentages(...)`: base allocation followed by the full tilt
cascade, in the exact source order.  `dual_ma_signals = none` models the
Python default `None` (falsy), in which case the simple trend filter runs
instead of the dual-MA filter; the cash-buffer pass is disabled (commented
out) in v1.7 of the source. -/
def get_target_percentages (s : String) (gold_bear : Bool) (value_regime : Bool)
    (asset_trends : AssetMap Bool) (vix : Option ℚ) (yield_curve : Option ℚ)
    (sahm : Option ℚ) (corr : Option ℚ) (momentum_scores : AssetMap (Option ℚ))
    (yc_recently_inverted : Bool) (vix_recent_peak : Option ℚ)
    (dual_ma_signals : Option (AssetMap (Option String)))
    (breadth_score : Option ℚ) : AssetMap ℚ :=
  let targets := base_allocation s value_regime vix
  let targets := apply_vix_adjustments targets s vix
  let targets := apply_yield_curve_guard targets s yield_curve
  let targets :=
    match dual_ma_signals with
    | some sigs => apply_dual_ma_trend_filter targets s sigs
    | none => apply_trend_filters targets s asset_trends
  let targets := apply_iwy_safety_valve targets s asset_trends vix
  let targets := apply_gold_filter targets gold_bear
  let targets := apply_momentum_intensity targets s momentum_scores
  let targets := apply_sahm_early_warning targets s sahm
  let targets := apply_yield_curve_uninvert_protection targets s yield_curve yc_recently_inverted
  let targets := apply_correlation_adjustment targets s corr
  let targets := apply_vix_mean_reversion targets s vix vix_recent_peak
  let targets := apply_market_breadth_adjustment targets s breadth_score
  let targets := apply_trend_boost targets s momentum_scores vix
  apply_value_rotation targets s momentum_scores

/-! The regime classifier `determine_macro_state` of `app.py`. -/

/-- A feature row as consumed by `determine_macro_state`: the keys
`Sahm, RateShock, Corr, VIX, Trend_Bear`. -/
structure MacroRow where
  Sahm : ℚ
  RateShock : ℚ
  Corr : ℚ
  VIX : ℚ
  Trend_Bear : Bool
deriving DecidableEq, Repr

/-- The threshold dictionary of `determine_macro_state`. -/
structure MacroParams where
  sahm_threshold : ℚ
  rate_shock_threshold : ℚ
  corr_threshold : ℚ
  vix_panic : ℚ
  vix_recession : ℚ
  vix_elevated : ℚ
deriving DecidableEq, Repr

/-- The default parameter dictionary built when `params is None`. -/
def defaultMacroParams : MacroParams :=
  { sahm_threshold := 50/100, rate_shock_threshold := 20/100, corr_threshold := 30/100,
    vix_panic := 32, vix_recession := 35, vix_elevated := 20 }

/-- `determine_macro_state(row, params)`: the six-regime classifier, as an
if/elif chain in source order. -/
def determine_macro_state (row : MacroRow) (params : MacroParams) : String :=
  let is_rec := decide (row.Sahm ≥ params.sahm_threshold)
  let is_shock := decide (row.RateShock > params.rate_shock_threshold)
  let is_c_broken := decide (row.Corr > params.corr_threshold)
  let is_f := decide (row.VIX > params.vix_panic)
  let is_down := row.Trend_Bear
  let is_vol_elevated := decide (row.VIX > params.vix_elevated)
  if is_shock || (is_rec && is_c_broken) then "INFLATION_SHOCK"
  else if is_rec || (is_down && decide (row.VIX > params.vix_recession)) then
    "DEFLATION_RECESSION"
  else if is_f && !is_shock && !is_rec then "EXTREME_ACCUMULATION"
  else if is_down then "CAUTIOUS_TREND"
  else if is_vol_elevated then "CAUTIOUS_VOL"
  else "NEUTRAL"

/-- Reference function transcribing the priority rules as worded in the spec
(first matching rule wins, each later rule presupposes that no earlier rule
fired).  This is the one definition written from the wording of the spec, to
be compared with `determine_macro_state`, which is written from the source. -/
def macroStateSpecOrder (row : MacroRow) (p : MacroParams) : String :=
  let recession := decide (row.Sahm ≥ p.sahm_threshold)
  let shock := decide (row.RateShock > p.rate_shock_threshold)
  let corrBroken := decide (row.Corr > p.corr_threshold)
  let r1 := shock || (recession && corrBroken)
  let r2 := recession || (row.Trend_Bear && decide (row.VIX > p.vix_recession))
  let r3 := decide (row.VIX > p.vix_panic)
  let r4 := row.Trend_Bear
  let r5 := decide (row.VIX > p.vix_elevated)
  if r1 then "INFLATION_SHOCK"
  else if !r1 && r2 then "DEFLATION_RECESSION"
  else if !r1 && !r2 && r3 then "EXTREME_ACCUMULATION"
  else if !r1 && !r2 && !r3 && r4 then "CAUTIOUS_TREND"
  else if !r1 && !r2 && !r3 && !r4 && r5 then "CAUTIOUS_VOL"
  else "NEUTRAL"

/-- The list of the six regime labels. -/
def regimeLabels : List String :=
  ["INFLATION_SHOCK", "DEFLATION_RECESSION", "EXTREME_ACCUMULATION",
   "CAUTIOUS_TREND", "CAUTIOUS_VOL", "NEUTRAL"]

/-! The performance analyzer `calculate_equity_curve_metrics` of `app.py`. -/

/-- Largest element of a rational list, `none` on the empty list. -/
def qmax? (l : List ℚ) : Option ℚ :=
  l.foldl (fun acc x => match acc with | none => some x | some m => some (max m x)) none

/-- Smallest element of a rational list, `none` on the empty list. -/
def qmin? (l : List ℚ) : Option ℚ :=
  l.foldl (fun acc x => match acc with | none => some x | some m => some (min m x)) none

/-- Largest element of a list of naturals, `0` on the empty list. -/
def natMaxList (l : List ℕ) : ℕ := l.foldl max 0

/-- The pandas idiom `series.pct_change().fillna(0)`: first entry `0`, then
the ratio of successive entries minus one. -/
def pctChange : List ℚ → List ℚ
  | [] => []
  | x :: xs => 0 :: List.zipWith (fun a b => b / a - 1) (x :: xs) xs

/-- Helper for `series.cummax()`. -/
def runningMaxAux (m : ℚ) : List ℚ → List ℚ
  | [] => []
  | x :: xs => max m x :: runningMaxAux (max m x) xs

/-- The pandas idiom `series.cummax()`. -/
def runningMax : List ℚ → List ℚ
  | [] => []
  | x :: xs => x :: runningMaxAux x xs

/-- Days underwater per date: each triple is `(day, value, running max)`; a
date where the value equals the running maximum is a peak, and every date
reports its distance in days from the most recent peak. -/
def ddDaysAux (lastPeak : ℕ) : List (ℕ × ℚ × ℚ) → List ℕ
  | [] => []
  | t :: rest =>
    let lp := if t.2.1 = t.2.2 then t.1 else lastPeak
    (t.1 - lp) :: ddDaysAux lp rest

/-- `calculate_equity_curve_metrics(series, risk_free_rate)` over a series of
`(day number, value)` pairs.  A series that is empty or shorter than 2 points
returns the empty dict `{}` (modelled by `[]`); the source function contains
no `raise` statement at all.  The returned record models the rational-valued
metrics exactly; CAGR, annualized volatility, Sharpe, Sortino, Calmar and the
per-year returns involve real powers and square roots (irrational over ℚ),
are mentioned by no claim, and are omitted from the modelled record — the
length guard, which the claims are about, is independent of them. -/
def calculate_equity_curve_metrics (series : List (ℕ × ℚ)) : List (String × ℚ) :=
  if series.length < 2 then []
  else
    let values := series.map (fun t => t.2)
    let first := values.headD 0
    let lastV := values.getLastD 0
    let total_return := (lastV / first - 1) * 100
    let rmax := runningMax values
    let drawdown := List.zipWith (fun v m => (v / m - 1) * 100) values rmax
    let max_dd := (qmin? drawdown).getD 0
    let triples := List.zip (series.map (fun t => t.1)) (List.zip values rmax)
    let max_dd_days := natMaxList (ddDaysAux (series.headD (0, 0)).1 triples)
    let daily_ret := pctChange values
    let winning := (daily_ret.filter (fun r => decide (0 < r))).length
    let losing := (daily_ret.filter (fun r => decide (r < 0))).length
    let total_days := winning + losing
    let win_rate := if 0 < total_days then (winning : ℚ) / total_days * 100 else 0
    let avg_win :=
      if 0 < winning then (daily_ret.filter (fun r => decide (0 < r))).sum / winning else 0
    let avg_loss :=
      if 0 < losing then |(daily_ret.filter (fun r => decide (r < 0))).sum / losing| else 0
    let pl_ratio := if avg_loss > 0 then avg_win / avg_loss else 0
    [("Total Return (%)", total_return), ("Max Drawdown (%)", max_dd),
     ("Max DD Days", (max_dd_days : ℚ)), ("Win Rate (Daily %)", win_rate),
     ("Profit/Loss Ratio", pl_ratio)]

/-! The day-by-day backtest simulator `run_dynamic_backtest` of `app.py`.

Modelling notes:

* The simulator is modelled in its `use_proxies=False` configuration (the one
  every claim is about): the proxy translation `map_target_to_asset` is then
  the identity on the eight target assets, all of which are price columns.
* Input: a `warmup` list of pre-start price rows (the source fetches one year
  of prices before the start date so that rolling moving averages exist from
  the first simulated date) and one `StateRow` per simulated date carrying
  the feature/state table (`df_states`) columns and that date's prices, on a
  common strictly increasing date index (the source intersects the two
  indices).  Prices are assumed fully populated, which makes the source's
  `ffill().bfill()` the identity.
* The source carries `prev_row_state/gb/vr/date` variables that always equal
  the previous row's fields; the model carries the previous row index
  (`prevRowIdx`) and reads the same fields through it.  Date-keyed lookups
  (`df_states.loc[decision_date]`, `.index.get_loc`) become index lookups,
  which is exact on a strictly increasing index.
* `np.std(..) * np.sqrt(252)` in the volatility-targeting overlay is the only
  irrational computation; it is modelled as `sqrtA (popVar w) * sqrtA 252`
  for an explicit square-root model `sqrtA : ℚ → ℚ` (float sqrt idealised).
  Every theorem below either holds uniformly in `sqrtA` or evaluates a run
  too short (`≤ VOL_LOOKBACK + 1` days) for the branch to execute.
* `DayRec` is the per-date history record (`history_records`); the fields
  after `targetsRec` are ghost fields added for verification (the applied
  weights, the gross return before costs, the end-of-day NAV, the decision
  inputs used, and the pending-counter value), which the source keeps in
  local variables. -/

/-- Calendar data of one trading date, as used by `is_rebalance_day`. -/
structure SimDate where
  weekday : ℕ
  month : ℕ
deriving DecidableEq, Repr

/-- One aligned row of the state table `df_states` together with that date's
prices: the `State`, `Gold_Bear`, `Value_Regime`, `VIX`, `YieldCurve`,
`Sahm`, `Corr` columns. -/
structure StateRow where
  date : SimDate
  state : String
  goldBear : Bool
  valueRegime : Bool
  vix : Option ℚ
  yieldCurve : Option ℚ
  sahm : Option ℚ
  corr : Option ℚ
  prices : AssetMap ℚ
deriving DecidableEq, Repr

def defaultStateRow : StateRow :=
  ⟨⟨0, 1⟩, "NEUTRAL", false, false, none, none, none, none, zeroW⟩

/-- The simulator parameters of `run_dynamic_backtest`. -/
structure BTConfig where
  initial_capital : ℚ
  ma_window : ℕ
  rebal_freq : String
  transaction_cost_bps : ℚ
deriving DecidableEq, Repr

/-- `is_rebalance_day(date, freq, prev_date)`. -/
def is_rebalance_day (date : SimDate) (freq : String) (prev_date : Option SimDate) : Bool :=
  if freq = "Daily" then true
  else if freq = "Weekly" then decide (date.weekday = 0)
  else if freq = "Monthly" then
    match prev_date with
    | none => true
    | some pd => decide (date.month ≠ pd.month)
  else if freq = "Quarterly" then
    match prev_date with
    | none => true
    | some pd => decide ((date.month - 1) / 3 ≠ (pd.month - 1) / 3)
  else true

/-- All prices up to simulated index `j` inclusive, warmup history included. -/
def priceHist (warmup : List (AssetMap ℚ)) (rows : List StateRow) (j : ℕ) :
    List (AssetMap ℚ) :=
  (warmup ++ rows.map (fun r => r.prices)).take (warmup.length + j + 1)

def listMean (l : List ℚ) : ℚ := l.sum / l.length

/-- Population variance (`np.std` squared, `ddof = 0`). -/
def popVar (l : List ℚ) : ℚ :=
  let m := listMean l
  (l.map (fun x => (x - m) ^ 2)).sum / l.length

/-- Rolling `mw`-day moving average of one asset at simulated index `j`:
`none` (pandas `NaN`) while fewer than `mw` prices exist. -/
def maAt (warmup : List (AssetMap ℚ)) (rows : List StateRow) (mw : ℕ)
    (get : AssetMap ℚ → ℚ) (j : ℕ) : Option ℚ :=
  let h := priceHist warmup rows j
  if mw ≤ h.length ∧ 0 < mw then some (listMean ((h.drop (h.length - mw)).map get))
  else none

/-- Price of one asset at simulated index `j`. -/
def lastPrice (warmup : List (AssetMap ℚ)) (rows : List StateRow)
    (get : AssetMap ℚ → ℚ) (j : ℕ) : ℚ :=
  get ((priceHist warmup rows j).getLastD zeroW)

/-- `price < rolling MA` trend flag (`False` where the MA is `NaN`, matching
the pandas comparison). -/
def trendBearAt (warmup : List (AssetMap ℚ)) (rows : List StateRow) (mw : ℕ)
    (get : AssetMap ℚ → ℚ) (j : ℕ) : Bool :=
  match maAt warmup rows mw get j with
  | some m => decide (lastPrice warmup rows get j < m)
  | none => false

/-- Momentum score `(price - ma) / ma`, absent where the MA is `NaN` or
non-positive. -/
def momentumAt (warmup : List (AssetMap ℚ)) (rows : List StateRow) (mw : ℕ)
    (get : AssetMap ℚ → ℚ) (j : ℕ) : Option ℚ :=
  match maAt warmup rows mw get j with
  | some m => if m > 0 then some ((lastPrice warmup rows get j - m) / m) else none
  | none => none

/-- All eight trend flags at simulated index `j`. -/
def trendsAt (warmup : List (AssetMap ℚ)) (rows : List StateRow) (mw j : ℕ) :
    AssetMap Bool :=
  ⟨trendBearAt warmup rows mw (fun w => w.iwy) j,
   trendBearAt warmup rows mw (fun w => w.wtmf) j,
   trendBearAt warmup rows mw (fun w => w.lvhi) j,
   trendBearAt warmup rows mw (fun w => w.g3b) j,
   trendBearAt warmup rows mw (fun w => w.mbh) j,
   trendBearAt warmup rows mw (fun w => w.gsd) j,
   trendBearAt warmup rows mw (fun w => w.srt) j,
   trendBearAt warmup rows mw (fun w => w.ajbu) j⟩

/-- All eight momentum scores at simulated index `j`. -/
def momentumScoresAt (warmup : List (AssetMap ℚ)) (rows : List StateRow) (mw j : ℕ) :
    AssetMap (Option ℚ) :=
  ⟨momentumAt warmup rows mw (fun w => w.iwy) j,
   momentumAt warmup rows mw (fun w => w.wtmf) j,
   momentumAt warmup rows mw (fun w => w.lvhi) j,
   momentumAt warmup rows mw (fun w => w.g3b) j,
   momentumAt warmup rows mw (fun w => w.mbh) j,
   momentumAt warmup rows mw (fun w => w.gsd) j,
   momentumAt warmup rows mw (fun w => w.srt) j,
   momentumAt warmup rows mw (fun w => w.ajbu) j⟩

/-- Max of the `VIX` column over the trailing 61-row window ending at the
decision index (`iloc[max(0, idx-60) : idx+1].max()`, NaN-skipping). -/
def vixPeakAt (rows : List StateRow) (d : ℕ) : Option ℚ :=
  qmax? (((rows.take (d + 1)).drop (d - 60)).filterMap (fun r => r.vix))

/-- Whether the `YieldCurve` column dipped below `-0.20` in the trailing
253-row window ending at the decision index (NaN-skipping; `False` when the
window holds no value, matching `NaN < -0.20`). -/
def ycRecentlyInvertedAt (rows : List StateRow) (d : ℕ) : Bool :=
  match qmin? (((rows.take (d + 1)).drop (d - 252)).filterMap (fun r => r.yieldCurve)) with
  | some m => decide (m < -(20/100))
  | none => false

/-- `price_data.pct_change().fillna(0)` at simulated index `i`, per asset. -/
def returnsAt (rows : List StateRow) (i : ℕ) : AssetMap ℚ :=
  if i = 0 then zeroW
  else
    let p := (rows.getD (i - 1) defaultStateRow).prices
    let q := (rows.getD i defaultStateRow).prices
    ⟨q.iwy / p.iwy - 1, q.wtmf / p.wtmf - 1, q.lvhi / p.lvhi - 1, q.g3b / p.g3b - 1,
     q.mbh / p.mbh - 1, q.gsd / p.gsd - 1, q.srt / p.srt - 1, q.ajbu / p.ajbu - 1⟩

/-- Apply a function to every weight. -/
def mapW (f : ℚ → ℚ) (w : AssetMap ℚ) : AssetMap ℚ :=
  ⟨f w.iwy, f w.wtmf, f w.lvhi, f w.g3b, f w.mbh, f w.gsd, f w.srt, f w.ajbu⟩

/-- Combine two weight maps entrywise. -/
def zipW (f : ℚ → ℚ → ℚ) (a b : AssetMap ℚ) : AssetMap ℚ :=
  ⟨f a.iwy b.iwy, f a.wtmf b.wtmf, f a.lvhi b.lvhi, f a.g3b b.g3b,
   f a.mbh b.mbh, f a.gsd b.gsd, f a.srt b.srt, f a.ajbu b.ajbu⟩

/-- Sum of per-asset absolute weight differences. -/
def absDiffSum (a b : AssetMap ℚ) : ℚ :=
  |a.iwy - b.iwy| + |a.wtmf - b.wtmf| + |a.lvhi - b.lvhi| + |a.g3b - b.g3b| +
  |a.mbh - b.mbh| + |a.gsd - b.gsd| + |a.srt - b.srt| + |a.ajbu - b.ajbu|

/-- Whether any single asset's weight difference exceeds the tolerance. -/
def maxAbsDiffGt (a b : AssetMap ℚ) (t : ℚ) : Bool :=
  decide (|a.iwy - b.iwy| > t) || decide (|a.wtmf - b.wtmf| > t) ||
  decide (|a.lvhi - b.lvhi| > t) || decide (|a.g3b - b.g3b| > t) ||
  decide (|a.mbh - b.mbh| > t) || decide (|a.gsd - b.gsd| > t) ||
  decide (|a.srt - b.srt| > t) || decide (|a.ajbu - b.ajbu| > t)

/-- The VIX transition-smoothing block of the backtest loop: in `NEUTRAL`
with VIX above the smoothing start, move part of `IWY` into `WTMF`. -/
def vixSmoothTargets (s : String) (vix_val : Option ℚ) (targets0 : AssetMap ℚ) :
    AssetMap ℚ :=
  match vix_val with
  | some v =>
    if s = "NEUTRAL" ∧ v > VIX_SMOOTH_START then
      let smooth_reduction :=
        min ((v - VIX_SMOOTH_START) / (VIX_SMOOTH_END - VIX_SMOOTH_START) *
          VIX_MAX_REDUCTION) VIX_MAX_REDUCTION
      let iwy_current := targets0.iwy
      let move_amt := iwy_current * smooth_reduction
      { targets0 with
        iwy := iwy_current - move_amt
        wtmf := targets0.wtmf + move_amt }
    else targets0
  | none => targets0

/-- Portfolio return: weights dotted with per-asset returns. -/
def dotW (w r : AssetMap ℚ) : ℚ :=
  w.iwy * r.iwy + w.wtmf * r.wtmf + w.lvhi * r.lvhi + w.g3b * r.g3b +
  w.mbh * r.mbh + w.gsd * r.gsd + w.srt * r.srt + w.ajbu * r.ajbu

/-- The confirmation-delay state: confirmed regime, pending candidate and its
consecutive-day counter. -/
structure ConfirmState where
  confirmed : Option String
  pending : Option String
  pendingDays : ℕ
deriving DecidableEq, Repr

/-- Confirmation length per target regime: 1 day for `EXTREME_ACCUMULATION`
(`EXTREME_CONFIRM_DAYS`), 2 days otherwise (`SIGNAL_CONFIRM_DAYS`). -/
def requiredConfirmDays (raw : String) : ℕ :=
  if raw = "EXTREME_ACCUMULATION" then EXTREME_CONFIRM_DAYS else SIGNAL_CONFIRM_DAYS

/-- One step of the signal-confirmation machine (the confirmation-delay block
of the backtest loop).  Returns the new state and whether a regime switch was
confirmed on this step. -/
def confirmStep (cs : ConfirmState) (raw : String) : ConfirmState × Bool :=
  match cs.confirmed with
  | none => (⟨some raw, none, 0⟩, false)
  | some c =>
    if raw ≠ c then
      if cs.pending = some raw then
        let days := cs.pendingDays + 1
        if requiredConfirmDays raw ≤ days then (⟨some raw, none, 0⟩, true)
        else (⟨some c, some raw, days⟩, false)
      else (⟨some c, some raw, 1⟩, false)
    else (⟨some c, none, 0⟩, false)

/-- First stop-loss recovery stage whose threshold lies strictly below the
current drawdown (source: first `dd > threshold` match wins, then `break`). -/
def slStageFor (dd : ℚ) : Option (ℚ × ℚ) :=
  STOP_LOSS_RECOVERY_STAGES.find? (fun p => decide (dd > p.1))

/-- The carried simulator state of one backtest run. -/
structure SimState where
  curVal : ℚ
  histRet : List ℚ
  peakNav : ℚ
  inStopLoss : Bool
  confirm : ConfirmState
  transitionFrom : Option (AssetMap ℚ)
  transitionDay : ℕ
  inTransition : Bool
  prevTargets : Option (AssetMap ℚ)
  prevRets : Option (AssetMap ℚ)
  prevDate : Option SimDate
  prevRowIdx : Option ℕ
deriving DecidableEq, Repr

/-- The per-date history record; fields from `finalWeights` on are ghost
fields for verification (local variables of the source loop). -/
structure DayRec where
  rawState : String
  state : String
  turnover : ℚ
  tradingCost : ℚ
  rebalanced : Bool
  inStopLossRec : Bool
  drawdown : ℚ
  inTransitionRec : Bool
  targetsRec : AssetMap ℚ
  finalWeights : AssetMap ℚ
  grossRet : ℚ
  nav : ℚ
  usedVix : Option ℚ
  usedYc : Option ℚ
  usedSahm : Option ℚ
  usedCorr : Option ℚ
  decisionIdx : ℕ
  pendingDaysAfter : ℕ
deriving DecidableEq, Repr

/-- The inputs one simulated day reads from the aligned tables: the current
row's date, the lagged decision row's signal columns, the lagged derived
signals (trends, momentum, recent VIX peak, recent inversion) and the current
date's price returns.  None of these reads the `State` column of the current
row (the raw state is read separately, by the confirmation machine). -/
structure DayInputs where
  dateI : SimDate
  gb : Bool
  vr : Bool
  vix : Option ℚ
  yc : Option ℚ
  sahm : Option ℚ
  corr : Option ℚ
  trends : AssetMap Bool
  momentum : AssetMap (Option ℚ)
  vixPeak : Option ℚ
  ycInv : Bool
  rets : AssetMap ℚ
deriving DecidableEq, Repr

/-- Decision inputs of simulated day `i` with decision index `decIdx`. -/
def dayInputsAt (cfg : BTConfig) (warmup : List (AssetMap ℚ)) (rows : List StateRow)
    (i decIdx : ℕ) : DayInputs :=
  let decRow := rows.getD decIdx defaultStateRow
  { dateI := (rows.getD i defaultStateRow).date
    gb := decRow.goldBear
    vr := decRow.valueRegime
    vix := decRow.vix
    yc := decRow.yieldCurve
    sahm := decRow.sahm
    corr := decRow.corr
    trends := trendsAt warmup rows cfg.ma_window decIdx
    momentum := momentumScoresAt warmup rows cfg.ma_window decIdx
    vixPeak := vixPeakAt rows decIdx
    ycInv := ycRecentlyInvertedAt rows decIdx
    rets := returnsAt rows i }

/-- Everything one simulated day does after the confirmation machine: targets
and VIX smoothing, drift, transition blending, rebalance gating, volatility
targeting, stop loss, turnover, cost and the NAV update.  `sConf` is the
confirmed regime after this day's confirmation step and `didConfirm` whether
a switch was confirmed (the two outputs of the confirmation block that the
rest of the day reads).  The `confirm` field of the returned state is a
placeholder, always overwritten by `step`. -/
def stepCore (sqrtA : ℚ → ℚ) (cfg : BTConfig) (i decIdx : ℕ) (inp : DayInputs)
    (st : SimState) (sConf : Option String) (didConfirm : Bool) : SimState × DayRec :=
  let gb := inp.gb
  let vr := inp.vr
  let inTrans0 := if didConfirm then true else st.inTransition
  let transDay0 := if didConfirm then 0 else st.transitionDay
  let transFrom0 := if didConfirm then st.prevTargets else st.transitionFrom
  let s := sConf.getD ""
  let should_rebalance := is_rebalance_day inp.dateI cfg.rebal_freq st.prevDate
  let daily_trends := inp.trends
  let vix_val := inp.vix
  let yc_val := inp.yc
  let sahm_val := inp.sahm
  let corr_val := inp.corr
  let momentum_scores := inp.momentum
  let vix_recent_peak := inp.vixPeak
  let yc_recently_inverted := inp.ycInv
  let targets0 := get_target_percentages s gb vr daily_trends vix_val yc_val sahm_val
    corr_val momentum_scores yc_recently_inverted vix_recent_peak none none
  let targets := vixSmoothTargets s vix_val targets0
  let new_target_weights0 := targets
  let drifted : Option (AssetMap ℚ) :=
    match st.prevTargets with
    | none => none
    | some pw =>
      let r := st.prevRets.getD zeroW
      let dv := zipW (fun w q => w * (1 + q)) pw r
      let prev_cash_w := max 0 (1 - sumW pw)
      let total := sumW dv + prev_cash_w
      if total > 0 then some (mapW (fun x => x / total) dv) else some pw
  let blendRes :=
    match transFrom0 with
    | some tf =>
      if inTrans0 then
        let td := transDay0 + 1
        let progress := min ((td : ℚ) / (STATE_TRANSITION_DAYS : ℚ)) 1
        let blended := zipW (fun o n => o * (1 - progress) + n * progress) tf
          new_target_weights0
        if STATE_TRANSITION_DAYS ≤ td then (blended, false, (none : Option (AssetMap ℚ)), 0)
        else (blended, true, some tf, td)
      else (new_target_weights0, inTrans0, transFrom0, transDay0)
    | none => (new_target_weights0, inTrans0, transFrom0, transDay0)
  let new_target_weights := blendRes.1
  let inTrans1 := blendRes.2.1
  let transFrom1 := blendRes.2.2.1
  let transDay1 := blendRes.2.2.2
  let needs_rebalance_by_threshold :=
    match drifted with
    | some dw => maxAbsDiffGt new_target_weights dw REBALANCE_THRESHOLD
    | none => false
  let should_actually_rebalance :=
    (should_rebalance && needs_rebalance_by_threshold) || st.prevTargets.isNone || inTrans1
  let final0 :=
    if should_actually_rebalance then new_target_weights
    else match drifted with | some dw => dw | none => new_target_weights
  let vol_history_for_calc := st.histRet.drop 1
  let final1 :=
    if VOL_LOOKBACK ≤ vol_history_for_calc.length then
      let window := vol_history_for_calc.take VOL_LOOKBACK
      let realized_vol := sqrtA (popVar window) * sqrtA 252
      if realized_vol > 0 then
        let vol_scalar := max VOL_SCALAR_MIN (min (TARGET_VOL / realized_vol) VOL_SCALAR_MAX)
        let total_weight := sumW final0
        if total_weight > 0 then
          let scaled := mapW (fun w => w * vol_scalar) final0
          let total_scaled := sumW scaled
          if total_scaled > 1 then mapW (fun w => w / total_scaled) scaled else scaled
        else final0
      else final0
    else final0
  let current_drawdown := if st.peakNav > 0 then (st.curVal - st.peakNav) / st.peakNav else 0
  let inSL1 :=
    if ¬ st.inStopLoss ∧ current_drawdown < DRAWDOWN_STOP_LOSS then true
    else if st.inStopLoss then
      match slStageFor current_drawdown with
      | some stage => if 1 ≤ stage.2 then false else true
      | none => true
    else st.inStopLoss
  let final :=
    if inSL1 then
      let current_recovery_ratio :=
        ((slStageFor current_drawdown).map (fun p => p.2)).getD (1 - DRAWDOWN_REDUCE_RATIO)
      { final1 with
        iwy := final1.iwy * current_recovery_ratio
        lvhi := final1.lvhi * current_recovery_ratio
        g3b := final1.g3b * current_recovery_ratio
        mbh := final1.mbh * current_recovery_ratio
        srt := final1.srt * current_recovery_ratio
        ajbu := final1.ajbu * current_recovery_ratio }
    else final1
  let daily_turnover :=
    match st.prevTargets with
    | none => sumW final
    | some _ =>
      if should_actually_rebalance then
        let dw := drifted.getD zeroW
        let diff := absDiffSum final dw
        let curr_cash := max 0 (1 - sumW final)
        let prev_cash := max 0 (1 - sumW dw)
        (diff + |curr_cash - prev_cash|) / 2
      else 0
  let trading_cost := daily_turnover * (cfg.transaction_cost_bps / 10000)
  let current_rets := inp.rets
  let gross := dotW final current_rets
  let daily_ret := gross - trading_cost
  let newVal := st.curVal * (1 + daily_ret)
  let newPeak := if newVal > st.peakNav then newVal else st.peakNav
  ({ curVal := newVal
     histRet := daily_ret :: st.histRet
     peakNav := newPeak
     inStopLoss := inSL1
     confirm := ⟨none, none, 0⟩
     transitionFrom := transFrom1
     transitionDay := transDay1
     inTransition := inTrans1
     prevTargets := some final
     prevRets := some current_rets
     prevDate := some inp.dateI
     prevRowIdx := some i },
   { rawState := ""
     state := s
     turnover := daily_turnover
     tradingCost := trading_cost
     rebalanced := should_actually_rebalance
     inStopLossRec := inSL1
     drawdown := current_drawdown
     inTransitionRec := inTrans1
     targetsRec := targets
     finalWeights := final
     grossRet := gross
     nav := newVal
     usedVix := vix_val
     usedYc := yc_val
     usedSahm := sahm_val
     usedCorr := corr_val
     decisionIdx := decIdx
     pendingDaysAfter := 0 })

/-- One full simulated day: read the lagged decision row (the first day has
no previous row and uses its own), run the confirmation machine, then the
rest of the day. -/
def step (sqrtA : ℚ → ℚ) (cfg : BTConfig) (warmup : List (AssetMap ℚ))
    (rows : List StateRow) (i : ℕ) (st : SimState) : SimState × DayRec :=
  let decIdx := st.prevRowIdx.getD i
  let raw := (rows.getD decIdx defaultStateRow).state
  let cs := confirmStep st.confirm raw
  let out := stepCore sqrtA cfg i decIdx (dayInputsAt cfg warmup rows i decIdx) st
    cs.1.confirmed cs.2
  ({ out.1 with confirm := cs.1 },
   { out.2 with
     rawState := raw
     pendingDaysAfter := cs.1.pendingDays })

/-- The simulator state before any day has run. -/
def initState (cfg : BTConfig) : SimState :=
  { curVal := cfg.initial_capital
    histRet := []
    peakNav := cfg.initial_capital
    inStopLoss := false
    confirm := ⟨none, none, 0⟩
    transitionFrom := none
    transitionDay := 0
    inTransition := false
    prevTargets := none
    prevRets := none
    prevDate := none
    prevRowIdx := none }

/-- Simulator state after the first `i` simulated days. -/
def stateAfter (sqrtA : ℚ → ℚ) (cfg : BTConfig) (warmup : List (AssetMap ℚ))
    (rows : List StateRow) : ℕ → SimState
  | 0 => initState cfg
  | i + 1 => (step sqrtA cfg warmup rows i (stateAfter sqrtA cfg warmup rows i)).1

/-- The history record of simulated day `i`. -/
def dayRecAt (sqrtA : ℚ → ℚ) (cfg : BTConfig) (warmup : List (AssetMap ℚ))
    (rows : List StateRow) (i : ℕ) : DayRec :=
  (step sqrtA cfg warmup rows i (stateAfter sqrtA cfg warmup rows i)).2

/-- End-of-day portfolio value of simulated day `i`. -/
def navAt (sqrtA : ℚ → ℚ) (cfg : BTConfig) (warmup : List (AssetMap ℚ))
    (rows : List StateRow) (i : ℕ) : ℚ :=
  (dayRecAt sqrtA cfg warmup rows i).nav

/-- Final NAV of a run over all rows. -/
def finalNav (sqrtA : ℚ → ℚ) (cfg : BTConfig) (warmup : List (AssetMap ℚ))
    (rows : List StateRow) : ℚ :=
  (stateAfter sqrtA cfg warmup rows rows.length).curVal

/-- Fixed rational stand-in for the float square root, used to instantiate
concrete runs; it only matters inside the volatility-targeting branch, which
no concrete run below is long enough to reach. -/
def qSqrt (q : ℚ) : ℚ :=
  (Nat.sqrt (Int.toNat (Int.floor (q * 1000000))) : ℚ) / 1000

/-- A concrete five-day run used to exercise the confirmation-delay
machinery: every row carries the regime `NEUTRAL` and flat prices. -/
def c5rows : List StateRow :=
  List.replicate 5
    { defaultStateRow with prices := ⟨100, 100, 100, 100, 100, 100, 100, 100⟩ }

def c5cfg : BTConfig := ⟨10000, 200, "Daily", 10⟩

/-- Every weight of the map is non-negative. -/
def NN (w : AssetMap ℚ) : Prop :=
  0 ≤ w.iwy ∧ 0 ≤ w.wtmf ∧ 0 ≤ w.lvhi ∧ 0 ≤ w.g3b ∧
  0 ≤ w.mbh ∧ 0 ≤ w.gsd ∧ 0 ≤ w.srt ∧ 0 ≤ w.ajbu

/-- A concrete three-day run with flat cross-asset prices
`100, 88.7, 44.35`, the regime `NEUTRAL` throughout and no optional signals:
the first drop leaves the portfolio just above the stop-loss line, the second
halves every price. -/
def c8rows : List StateRow :=
  [⟨⟨0, 1⟩, "NEUTRAL", false, false, none, none, none, none,
    ⟨100, 100, 100, 100, 100, 100, 100, 100⟩⟩,
   ⟨⟨0, 1⟩, "NEUTRAL", false, false, none, none, none, none,
    ⟨887/10, 887/10, 887/10, 887/10, 887/10, 887/10, 887/10, 887/10⟩⟩,
   ⟨⟨0, 1⟩, "NEUTRAL", false, false, none, none, none, none,
    ⟨4435/100, 4435/100, 4435/100, 4435/100, 4435/100, 4435/100, 4435/100, 4435/100⟩⟩]

/-! Helper lemmas: tilt passes that skip on the given regime, and passes that
never touch the `IWY` weight. -/

lemma apply_vix_adjustments_skip (w : AssetMap ℚ) (s : String) (v : Option ℚ)
    (h : s ≠ "NEUTRAL") : apply_vix_adjustments w s v = w := by
  cases v with
  | none => rfl
  | some x => simp [apply_vix_adjustments, h]

lemma apply_yield_curve_guard_skip (w : AssetMap ℚ) (s : String) (yc : Option ℚ)
    (h : ¬ (s = "DEFLATION_RECESSION" ∨ s = "CAUTIOUS_TREND")) :
    apply_yield_curve_guard w s yc = w := by
  unfold apply_yield_curve_guard
  rw [if_pos h]

lemma apply_trend_filters_skip (w : AssetMap ℚ) (tr : AssetMap Bool) :
    apply_trend_filters w "EXTREME_ACCUMULATION" tr = w := by
  unfold apply_trend_filters
  rw [if_pos rfl]

lemma apply_dual_ma_trend_filter_skip (w : AssetMap ℚ) (sigs : AssetMap (Option String)) :
    apply_dual_ma_trend_filter w "EXTREME_ACCUMULATION" sigs = w := by
  unfold apply_dual_ma_trend_filter
  rw [if_pos rfl]

lemma apply_iwy_safety_valve_skip (w : AssetMap ℚ) (tr : AssetMap Bool) (v : Option ℚ) :
    apply_iwy_safety_valve w "EXTREME_ACCUMULATION" tr v = w := by
  unfold apply_iwy_safety_valve
  rw [if_pos (Or.inl rfl)]

lemma apply_gold_filter_iwy (w : AssetMap ℚ) (gb : Bool) :
    (apply_gold_filter w gb).iwy = w.iwy := by
  unfold apply_gold_filter
  split <;> rfl

lemma apply_momentum_intensity_skip (w : AssetMap ℚ) (m : AssetMap (Option ℚ)) :
    apply_momentum_intensity w "EXTREME_ACCUMULATION" m = w := by
  unfold apply_momentum_intensity
  rw [if_pos (Or.inl rfl)]

lemma apply_sahm_early_warning_skip (w : AssetMap ℚ) (s : String) (sa : Option ℚ)
    (h : ¬ (s = "NEUTRAL" ∨ s = "CAUTIOUS_VOL")) : apply_sahm_early_warning w s sa = w := by
  unfold apply_sahm_early_warning
  rw [if_pos h]

lemma apply_yield_curve_uninvert_protection_skip (w : AssetMap ℚ) (s : String)
    (yc : Option ℚ) (ri : Bool) (h : ¬ (s = "NEUTRAL" ∨ s = "CAUTIOUS_VOL")) :
    apply_yield_curve_uninvert_protection w s yc ri = w := by
  unfold apply_yield_curve_uninvert_protection
  rw [if_pos h]

lemma apply_correlation_adjustment_skip (w : AssetMap ℚ) (s : String) (c : Option ℚ)
    (h : ¬ (s = "NEUTRAL" ∨ s = "CAUTIOUS_VOL" ∨ s = "CAUTIOUS_TREND")) :
    apply_correlation_adjustment w s c = w := by
  unfold apply_correlation_adjustment
  rw [if_pos h]

lemma apply_vix_mean_reversion_skip (w : AssetMap ℚ) (s : String) (v pk : Option ℚ)
    (h : ¬ (s = "NEUTRAL" ∨ s = "CAUTIOUS_VOL")) : apply_vix_mean_reversion w s v pk = w := by
  unfold apply_vix_mean_reversion
  rw [if_pos h]

lemma apply_market_breadth_adjustment_skip (w : AssetMap ℚ) (b : Option ℚ) :
    apply_market_breadth_adjustment w "EXTREME_ACCUMULATION" b = w := by
  unfold apply_market_breadth_adjustment
  rw [if_pos rfl]

lemma apply_trend_boost_skip (w : AssetMap ℚ) (s : String) (m : AssetMap (Option ℚ))
    (v : Option ℚ) (h : ¬ (s = "NEUTRAL" ∨ s = "CAUTIOUS_VOL")) :
    apply_trend_boost w s m v = w := by
  unfold apply_trend_boost
  rw [if_pos (Or.inl h)]

lemma apply_value_rotation_skip (w : AssetMap ℚ) (s : String) (m : AssetMap (Option ℚ))
    (h : ¬ (s = "NEUTRAL" ∨ s = "CAUTIOUS_VOL")) : apply_value_rotation w s m = w := by
  unfold apply_value_rotation
  rw [if_pos (Or.inl h)]

/-! Claim C1. -/

/-- Claim C1, counterexample.  The concrete feature row with VIX 33 (above the
elevated threshold 20, at or below the recession threshold 35), trend-down
flag set and no rate-shock/recession signal is classified
`EXTREME_ACCUMULATION` by the source classifier — not `CAUTIOUS_TREND` as the
claim states — because the default panic threshold (32) lies below the
recession threshold (35). -/
theorem C1_counterexample :
    determine_macro_state ⟨0, 0, 0, 33, true⟩ defaultMacroParams = "EXTREME_ACCUMULATION" ∧
    (33 : ℚ) > defaultMacroParams.vix_elevated ∧
    (33 : ℚ) ≤ defaultMacroParams.vix_recession ∧
    (0 : ℚ) < defaultMacroParams.sahm_threshold ∧
    (0 : ℚ) ≤ defaultMacroParams.rate_shock_threshold ∧
    "EXTREME_ACCUMULATION" ≠ "CAUTIOUS_TREND" := by
  refine ⟨?_, by norm_num [defaultMacroParams], by norm_num [defaultMacroParams],
    by norm_num [defaultMacroParams], by norm_num [defaultMacroParams], by decide⟩
  norm_num [determine_macro_state, defaultMacroParams]

/-- Claim C1 (amended).  For every well-formed feature row the classifier
returns exactly one of the six regime labels, and coincides everywhere with
the first-match priority order documented in the spec; in particular a
trend-down row whose VIX is above the elevated threshold but at or below the
panic threshold (amended from "below the recession threshold": for VIX in the
gap between the panic and recession thresholds the documented priority itself
yields `EXTREME_ACCUMULATION`), with no rate-shock or recession signal, is
classified `CAUTIOUS_TREND`, never `CAUTIOUS_VOL`. -/
theorem C1_classifier_priority (row : MacroRow) (p : MacroParams) :
    determine_macro_state row p = macroStateSpecOrder row p ∧
    determine_macro_state row p ∈ regimeLabels ∧
    (row.Trend_Bear = true → p.vix_elevated < row.VIX → row.VIX ≤ p.vix_panic →
      row.VIX ≤ p.vix_recession → row.Sahm < p.sahm_threshold →
      row.RateShock ≤ p.rate_shock_threshold →
      determine_macro_state row p = "CAUTIOUS_TREND") := by
  refine ⟨?_, ?_, ?_⟩
  · unfold determine_macro_state macroStateSpecOrder
    rcases hd : row.Trend_Bear <;>
    rcases h1 : decide (row.Sahm ≥ p.sahm_threshold) <;>
    rcases h2 : decide (row.RateShock > p.rate_shock_threshold) <;>
    rcases h3 : decide (row.Corr > p.corr_threshold) <;>
    rcases h4 : decide (row.VIX > p.vix_panic) <;>
    rcases h5 : decide (row.VIX > p.vix_elevated) <;>
    rcases h6 : decide (row.VIX > p.vix_recession) <;> simp
  · unfold determine_macro_state regimeLabels
    rcases hd : row.Trend_Bear <;>
    rcases h1 : decide (row.Sahm ≥ p.sahm_threshold) <;>
    rcases h2 : decide (row.RateShock > p.rate_shock_threshold) <;>
    rcases h3 : decide (row.Corr > p.corr_threshold) <;>
    rcases h4 : decide (row.VIX > p.vix_panic) <;>
    rcases h5 : decide (row.VIX > p.vix_elevated) <;>
    rcases h6 : decide (row.VIX > p.vix_recession) <;> simp
  · intro hdown helev hpanic hrec hsahm hshock
    unfold determine_macro_state
    have e1 : decide (row.Sahm ≥ p.sahm_threshold) = false := by
      simp [not_le.mpr hsahm]
    have e2 : decide (row.RateShock > p.rate_shock_threshold) = false := by
      simp [not_lt.mpr hshock]
    have e4 : decide (row.VIX > p.vix_panic) = false := by
      simp [not_lt.mpr hpanic]
    have e6 : decide (row.VIX > p.vix_recession) = false := by
      simp [not_lt.mpr hrec]
    simp [e1, e2, e4, e6, hdown]

/-- Claim C1, witness for the amended particular case: a trend-down row with
VIX 25 (elevated, at or below panic) and no other signal is classified
`CAUTIOUS_TREND`. -/
theorem C1_witness :
    determine_macro_state ⟨0, 0, 0, 25, true⟩ defaultMacroParams = "CAUTIOUS_TREND" :=
  (C1_classifier_priority ⟨0, 0, 0, 25, true⟩ defaultMacroParams).2.2 rfl
    (by norm_num [defaultMacroParams]) (by norm_num [defaultMacroParams])
    (by norm_num [defaultMacroParams]) (by norm_num [defaultMacroParams])
    (by norm_num [defaultMacroParams])

/-! Claim C2. -/

/-- Claim C2, code evaluated at the failing input.  For the `NEUTRAL` regime
with the value-regime flag set and every optional signal absent (so that every
tilt pass is a no-op), the allocation engine returns weights summing to
1.02 — the base-allocation branch itself (`0.55 + 0.20 + 0.05 + 0.05 + 0.03 +
0.07 + 0.07`) exceeds the documented `sum ≤ 1.0` invariant, which every other
base branch satisfies. -/
theorem C2_sum_exceeds_one :
    sumW (get_target_percentages "NEUTRAL" false true allFalse none none none none
      noneMom false none none none) = 51/50 ∧ (1 : ℚ) < 51/50 := by
  constructor
  · simp [get_target_percentages, base_allocation, apply_vix_adjustments,
      apply_yield_curve_guard, apply_trend_filters, trendFilterG3b, trendFilterLvhi,
      trendFilterMbh, trendFilterGsd, trendFilterSrt, trendFilterAjbu, trendDest,
      apply_iwy_safety_valve,
      apply_gold_filter, apply_momentum_intensity, apply_sahm_early_warning,
      apply_yield_curve_uninvert_protection, apply_correlation_adjustment,
      apply_vix_mean_reversion, apply_market_breadth_adjustment, apply_trend_boost,
      apply_value_rotation, momEmpty, noneMom, allFalse, sumW]
    norm_num
  · norm_num

/-! Claim C6. -/

/-- Claim C6, counterexample.  Passing a regime value that is not one of the
six known regimes does not fail: `base_allocation` silently returns exactly
the `NEUTRAL` allocation (its final fallthrough branch); no
`InvalidRegimeError` (or any `raise`) exists in the source. -/
theorem C6_counterexample :
    base_allocation "NOT_A_REGIME" false none = base_allocation "NEUTRAL" false none := by
  simp [base_allocation]

/-- Claim C6 (amended).  If a regime value that is not one of the five
specially handled regime strings is passed to the allocation engine, the
engine silently falls back to the neutral allocation: `base_allocation`
returns the `NEUTRAL` weight map for every such string, and no error is
raised (the function is total). -/
theorem C6_unknown_regime_neutral_fallback (s : String) (vr : Bool) (vix : Option ℚ)
    (h1 : s ≠ "INFLATION_SHOCK") (h2 : s ≠ "DEFLATION_RECESSION")
    (h3 : s ≠ "EXTREME_ACCUMULATION") (h4 : s ≠ "CAUTIOUS_TREND")
    (h5 : s ≠ "CAUTIOUS_VOL") :
    base_allocation s vr vix = base_allocation "NEUTRAL" vr vix := by
  unfold base_allocation
  rw [if_neg h1, if_neg h2, if_neg h3, if_neg h4, if_neg h5,
    if_neg (by decide : ¬ ("NEUTRAL" = "INFLATION_SHOCK")),
    if_neg (by decide : ¬ ("NEUTRAL" = "DEFLATION_RECESSION")),
    if_neg (by decide : ¬ ("NEUTRAL" = "EXTREME_ACCUMULATION")),
    if_neg (by decide : ¬ ("NEUTRAL" = "CAUTIOUS_TREND")),
    if_neg (by decide : ¬ ("NEUTRAL" = "CAUTIOUS_VOL"))]

/-- Claim C6, witness: the amended theorem applied at the unknown regime
string `GARBAGE`. -/
theorem C6_witness :
    base_allocation "GARBAGE" true (some 25) = base_allocation "NEUTRAL" true (some 25) :=
  C6_unknown_regime_neutral_fallback "GARBAGE" true (some 25) (by decide) (by decide)
    (by decide) (by decide) (by decide)

/-! Claim C7. -/

/-- Claim C7 (confirmed).  For the `EXTREME_ACCUMULATION` regime, the full
tilt cascade leaves the primary growth asset `IWY` exactly at its
base-allocation weight 0.85, for every combination of trend, volatility,
momentum, Sahm, correlation, breadth, yield-curve and dual-MA signals; in
particular no tilt pass reduces it below the base value. -/
theorem C7_extreme_iwy_preserved (gb vr : Bool) (tr : AssetMap Bool)
    (vix yc sahm corr : Option ℚ) (mom : AssetMap (Option ℚ)) (ycri : Bool)
    (vp : Option ℚ) (dma : Option (AssetMap (Option String))) (br : Option ℚ) :
    (get_target_percentages "EXTREME_ACCUMULATION" gb vr tr vix yc sahm corr mom
        ycri vp dma br).iwy = 85/100 ∧
    (base_allocation "EXTREME_ACCUMULATION" vr vix).iwy ≤
      (get_target_percentages "EXTREME_ACCUMULATION" gb vr tr vix yc sahm corr mom
        ycri vp dma br).iwy := by
  have hbase : (base_allocation "EXTREME_ACCUMULATION" vr vix).iwy = 85/100 := by
    simp [base_allocation]
  have hgtp : (get_target_percentages "EXTREME_ACCUMULATION" gb vr tr vix yc sahm corr mom
      ycri vp dma br).iwy = 85/100 := by
    cases dma with
    | none =>
      simp only [get_target_percentages]
      rw [apply_value_rotation_skip _ _ _ (by decide),
        apply_trend_boost_skip _ _ _ _ (by decide),
        apply_market_breadth_adjustment_skip,
        apply_vix_mean_reversion_skip _ _ _ _ (by decide),
        apply_correlation_adjustment_skip _ _ _ (by decide),
        apply_yield_curve_uninvert_protection_skip _ _ _ _ (by decide),
        apply_sahm_early_warning_skip _ _ _ (by decide),
        apply_momentum_intensity_skip, apply_gold_filter_iwy,
        apply_iwy_safety_valve_skip, apply_trend_filters_skip,
        apply_yield_curve_guard_skip _ _ _ (by decide),
        apply_vix_adjustments_skip _ _ _ (by decide), hbase]
    | some sigs =>
      simp only [get_target_percentages]
      rw [apply_value_rotation_skip _ _ _ (by decide),
        apply_trend_boost_skip _ _ _ _ (by decide),
        apply_market_breadth_adjustment_skip,
        apply_vix_mean_reversion_skip _ _ _ _ (by decide),
        apply_correlation_adjustment_skip _ _ _ (by decide),
        apply_yield_curve_uninvert_protection_skip _ _ _ _ (by decide),
        apply_sahm_early_warning_skip _ _ _ (by decide),
        apply_momentum_intensity_skip, apply_gold_filter_iwy,
        apply_iwy_safety_valve_skip, apply_dual_ma_trend_filter_skip,
        apply_yield_curve_guard_skip _ _ _ (by decide),
        apply_vix_adjustments_skip _ _ _ (by decide), hbase]
  exact ⟨hgtp, by rw [hbase, hgtp]⟩

/-! Claim C9. -/

/-- Claim C9, counterexample.  A NAV series with fewer than two points does
not raise an `InsufficientDataError` (the source contains no `raise` at all):
`calculate_equity_curve_metrics` returns the empty metrics dict normally, for
both a one-point and an empty series. -/
theorem C9_counterexample :
    calculate_equity_curve_metrics [(0, 100)] = [] ∧
    calculate_equity_curve_metrics [] = [] := by
  constructor <;> rfl

/-- Claim C9 (amended).  Given a NAV series with fewer than 2 points
(including an empty series), the performance analyzer returns the empty
metrics dict `{}` rather than a populated metrics record — it does not fail
with an `InsufficientDataError`; with at least 2 points it returns a
non-empty record. -/
theorem C9_short_series_empty_record (series : List (ℕ × ℚ)) :
    (series.length < 2 → calculate_equity_curve_metrics series = []) ∧
    (2 ≤ series.length → calculate_equity_curve_metrics series ≠ []) := by
  constructor
  · intro h
    unfold calculate_equity_curve_metrics
    rw [if_pos h]
  · intro h
    unfold calculate_equity_curve_metrics
    rw [if_neg (by omega)]
    simp

/-- Claim C9, witness: the amended theorem applied to an empty series and to
a concrete two-point series. -/
theorem C9_witness :
    calculate_equity_curve_metrics [] = [] ∧
    calculate_equity_curve_metrics [(0, 100), (1, 110)] ≠ [] :=
  ⟨(C9_short_series_empty_record []).1 (by decide),
   (C9_short_series_empty_record [(0, 100), (1, 110)]).2 (by decide)⟩

/-! Claim C10: the confirmation machine. -/

/-- The confirmation machine iterated over a raw-regime sequence from the
initial (no confirmed regime) state. -/
def foldConfirm (raws : List String) : ConfirmState :=
  raws.foldl (fun cs raw => (confirmStep cs raw).1) ⟨none, none, 0⟩

lemma take_succ_getD {α : Type} (l : List α) (i : ℕ) (h : i < l.length) (d : α) :
    l.take (i + 1) = l.take i ++ [l.getD i d] := by
  induction l generalizing i with
  | nil => simp at h
  | cons a t ih =>
    cases i with
    | zero => simp
    | succ n =>
      simp only [List.take_succ_cons, List.getD_cons_succ, List.cons_append]
      rw [ih n (by simpa using h)]

/-- After any confirmation step the pending candidate is either absent or the
raw regime just observed. -/
lemma confirmStep_pending_eq (cs : ConfirmState) (raw : String) :
    (confirmStep cs raw).1.pending = none ∨ (confirmStep cs raw).1.pending = some raw := by
  rcases h : cs.confirmed with _ | c <;> simp [confirmStep, h] <;> split_ifs <;> simp

/-- If a confirmation step changes the confirmed regime away from `some c`,
the pending candidate entering the step was the observed raw regime, and the
new confirmed regime is that raw regime. -/
lemma confirmStep_confirmed_change (cs : ConfirmState) (raw c : String)
    (h : cs.confirmed = some c) (hch : (confirmStep cs raw).1.confirmed ≠ some c) :
    cs.pending = some raw ∧ (confirmStep cs raw).1.confirmed = some raw := by
  simp only [confirmStep, h] at hch ⊢
  split_ifs at hch ⊢ with h1 h2 h3 <;> simp_all

lemma foldConfirm_take_succ (raws : List String) (i : ℕ) (h : i < raws.length) :
    foldConfirm (raws.take (i + 1)) =
      (confirmStep (foldConfirm (raws.take i)) (raws.getD i "")).1 := by
  unfold foldConfirm
  rw [take_succ_getD raws i h "", List.foldl_append]
  rfl

/-- Claim C10 (confirmed).  First: on the first day a raw regime differing
from the confirmed one is observed (no matching pending candidate yet), the
pending counter is set to 1 and no switch is confirmed — the threshold test
does not run on that day, whatever the required confirmation length (so also
for `EXTREME_ACCUMULATION` with its configured 1-day length).  Second: over
any raw sequence, whenever the confirmed regime changes (after the initial
day), the same new raw regime was observed on at least the two consecutive
days `i-1, i`.  Third: `EXTREME_CONFIRM_DAYS` is configured as 1. -/
theorem C10_never_confirmed_on_first_day :
    (∀ cs : ConfirmState, ∀ c raw : String,
      cs.confirmed = some c → raw ≠ c → cs.pending ≠ some raw →
      (confirmStep cs raw).1.confirmed = some c ∧
      (confirmStep cs raw).1.pendingDays = 1 ∧ (confirmStep cs raw).2 = false) ∧
    (∀ raws : List String, ∀ i : ℕ, i < raws.length →
      (foldConfirm (raws.take i)).confirmed ≠ none →
      (foldConfirm (raws.take (i + 1))).confirmed ≠ (foldConfirm (raws.take i)).confirmed →
      1 ≤ i ∧
      (foldConfirm (raws.take (i + 1))).confirmed = some (raws.getD i "") ∧
      raws.getD (i - 1) "" = raws.getD i "") ∧
    requiredConfirmDays "EXTREME_ACCUMULATION" = EXTREME_CONFIRM_DAYS ∧
    EXTREME_CONFIRM_DAYS = 1 := by
  refine ⟨?_, ?_, rfl, rfl⟩
  · intro cs c raw hc hraw hpend
    simp only [confirmStep, hc]
    rw [if_pos hraw, if_neg hpend]
    exact ⟨rfl, rfl, rfl⟩
  · intro raws i hi hne hch
    rw [foldConfirm_take_succ raws i hi] at hch
    obtain ⟨c, hc⟩ : ∃ c, (foldConfirm (raws.take i)).confirmed = some c := by
      rcases h : (foldConfirm (raws.take i)).confirmed with _ | c
      · exact absurd h hne
      · exact ⟨c, rfl⟩
    rw [hc] at hch
    obtain ⟨hpend, hconf⟩ := confirmStep_confirmed_change _ _ _ hc hch
    have hi1 : 1 ≤ i := by
      by_contra hlt
      have : i = 0 := by omega
      subst this
      simp [foldConfirm] at hc
    obtain ⟨hig, -⟩ : i - 1 < raws.length ∧ True := ⟨by omega, trivial⟩
    have hstep : foldConfirm (raws.take i) =
        (confirmStep (foldConfirm (raws.take (i - 1))) (raws.getD (i - 1) "")).1 := by
      have := foldConfirm_take_succ raws (i - 1) (by omega)
      rwa [Nat.sub_add_cancel hi1] at this
    have hprev := confirmStep_pending_eq (foldConfirm (raws.take (i - 1))) (raws.getD (i - 1) "")
    rw [← hstep] at hprev
    rcases hprev with h | h
    · rw [h] at hpend; exact absurd hpend (by simp)
    · rw [h] at hpend
      refine ⟨hi1, ?_, ?_⟩
      · rw [foldConfirm_take_succ raws i hi, hconf]
      · exact Option.some_injective _ hpend

/-- Claim C10, witness: the machine applied to the concrete sequence
`[NEUTRAL, EXTREME_ACCUMULATION, EXTREME_ACCUMULATION]`: the first
`EXTREME_ACCUMULATION` day only sets the pending counter to 1 without
confirming, and the switch that is confirmed on the second consecutive day
indeed had the same raw regime on the two preceding days. -/
theorem C10_witness :
    ((confirmStep ⟨some "NEUTRAL", none, 0⟩ "EXTREME_ACCUMULATION").1.confirmed =
        some "NEUTRAL" ∧
      (confirmStep ⟨some "NEUTRAL", none, 0⟩ "EXTREME_ACCUMULATION").1.pendingDays = 1 ∧
      (confirmStep ⟨some "NEUTRAL", none, 0⟩ "EXTREME_ACCUMULATION").2 = false) ∧
    (1 ≤ 2 ∧
      (foldConfirm (["NEUTRAL", "EXTREME_ACCUMULATION", "EXTREME_ACCUMULATION"].take 3)).confirmed
        = some (["NEUTRAL", "EXTREME_ACCUMULATION", "EXTREME_ACCUMULATION"].getD 2 "") ∧
      ["NEUTRAL", "EXTREME_ACCUMULATION", "EXTREME_ACCUMULATION"].getD 1 "" =
        ["NEUTRAL", "EXTREME_ACCUMULATION", "EXTREME_ACCUMULATION"].getD 2 "") :=
  ⟨C10_never_confirmed_on_first_day.1 ⟨some "NEUTRAL", none, 0⟩ "NEUTRAL"
      "EXTREME_ACCUMULATION" rfl (by decide) (by decide),
   C10_never_confirmed_on_first_day.2.1
      ["NEUTRAL", "EXTREME_ACCUMULATION", "EXTREME_ACCUMULATION"] 2 (by decide)
      (by decide) (by decide)⟩

/-! Claim C3: the decision lag. -/

lemma step_prevRowIdx (sqrtA : ℚ → ℚ) (cfg : BTConfig) (warmup : List (AssetMap ℚ))
    (rows : List StateRow) (i : ℕ) (st : SimState) :
    (step sqrtA cfg warmup rows i st).1.prevRowIdx = some i := rfl

/-- The carried previous-row index is exactly the preceding simulated index
(the source's `prev_row_*` variables always hold the previous row). -/
lemma stateAfter_prevRowIdx (sqrtA : ℚ → ℚ) (cfg : BTConfig) (warmup : List (AssetMap ℚ))
    (rows : List StateRow) (i : ℕ) :
    (stateAfter sqrtA cfg warmup rows i).prevRowIdx =
      if i = 0 then none else some (i - 1) := by
  cases i with
  | zero => rfl
  | succ n => simp [stateAfter, step_prevRowIdx]

lemma step_rawState (sqrtA : ℚ → ℚ) (cfg : BTConfig) (warmup : List (AssetMap ℚ))
    (rows : List StateRow) (i : ℕ) (st : SimState) :
    (step sqrtA cfg warmup rows i st).2.rawState =
      (rows.getD (st.prevRowIdx.getD i) defaultStateRow).state := rfl

lemma step_decisionIdx (sqrtA : ℚ → ℚ) (cfg : BTConfig) (warmup : List (AssetMap ℚ))
    (rows : List StateRow) (i : ℕ) (st : SimState) :
    (step sqrtA cfg warmup rows i st).2.decisionIdx = st.prevRowIdx.getD i := rfl

lemma step_usedVix (sqrtA : ℚ → ℚ) (cfg : BTConfig) (warmup : List (AssetMap ℚ))
    (rows : List StateRow) (i : ℕ) (st : SimState) :
    (step sqrtA cfg warmup rows i st).2.usedVix =
      (rows.getD (st.prevRowIdx.getD i) defaultStateRow).vix := rfl

lemma step_usedYc (sqrtA : ℚ → ℚ) (cfg : BTConfig) (warmup : List (AssetMap ℚ))
    (rows : List StateRow) (i : ℕ) (st : SimState) :
    (step sqrtA cfg warmup rows i st).2.usedYc =
      (rows.getD (st.prevRowIdx.getD i) defaultStateRow).yieldCurve := rfl

lemma step_usedSahm (sqrtA : ℚ → ℚ) (cfg : BTConfig) (warmup : List (AssetMap ℚ))
    (rows : List StateRow) (i : ℕ) (st : SimState) :
    (step sqrtA cfg warmup rows i st).2.usedSahm =
      (rows.getD (st.prevRowIdx.getD i) defaultStateRow).sahm := rfl

lemma step_usedCorr (sqrtA : ℚ → ℚ) (cfg : BTConfig) (warmup : List (AssetMap ℚ))
    (rows : List StateRow) (i : ℕ) (st : SimState) :
    (step sqrtA cfg warmup rows i st).2.usedCorr =
      (rows.getD (st.prevRowIdx.getD i) defaultStateRow).corr := rfl

/-- Claim C3, counterexample.  On the first simulated date the decision uses
the current date's own feature row, because no previous row exists: with two
rows whose states and VIX differ, day 0's recorded raw state and VIX are row
0's own values and the decision index is 0 — the claim's "never from the
current date's own row" fails on the first date. -/
theorem C3_counterexample :
    (dayRecAt qSqrt ⟨10000, 200, "Daily", 10⟩ []
      [⟨⟨0, 1⟩, "CAUTIOUS_VOL", false, false, some 25, none, none, none,
        ⟨100, 100, 100, 100, 100, 100, 100, 100⟩⟩,
       ⟨⟨1, 1⟩, "NEUTRAL", false, false, some 15, none, none, none,
        ⟨100, 100, 100, 100, 100, 100, 100, 100⟩⟩] 0).rawState = "CAUTIOUS_VOL" ∧
    (dayRecAt qSqrt ⟨10000, 200, "Daily", 10⟩ []
      [⟨⟨0, 1⟩, "CAUTIOUS_VOL", false, false, some 25, none, none, none,
        ⟨100, 100, 100, 100, 100, 100, 100, 100⟩⟩,
       ⟨⟨1, 1⟩, "NEUTRAL", false, false, some 15, none, none, none,
        ⟨100, 100, 100, 100, 100, 100, 100, 100⟩⟩] 0).usedVix = some 25 ∧
    (dayRecAt qSqrt ⟨10000, 200, "Daily", 10⟩ []
      [⟨⟨0, 1⟩, "CAUTIOUS_VOL", false, false, some 25, none, none, none,
        ⟨100, 100, 100, 100, 100, 100, 100, 100⟩⟩,
       ⟨⟨1, 1⟩, "NEUTRAL", false, false, some 15, none, none, none,
        ⟨100, 100, 100, 100, 100, 100, 100, 100⟩⟩] 0).decisionIdx = 0 ∧
    "CAUTIOUS_VOL" ≠ "NEUTRAL" :=
  ⟨rfl, rfl, rfl, by decide⟩

/-- Claim C3 (amended).  On every simulated date after the first, the raw
regime and the continuous signals (VIX, yield curve, Sahm, correlation) used
for that date's allocation decision are taken from the previous row of the
aligned feature table, and the decision index — through which the lagged
trend flags, momentum scores, recent VIX peak and recent-inversion flag are
computed — is the previous row's index; the first simulated date, which has
no previous row, uses its own row (amended: the claim's "never from the
current date's own row" holds from the second date on). -/
theorem C3_lagged_signals (sqrtA : ℚ → ℚ) (cfg : BTConfig) (warmup : List (AssetMap ℚ))
    (rows : List StateRow) (i : ℕ) (h1 : 1 ≤ i) :
    (dayRecAt sqrtA cfg warmup rows i).rawState =
      (rows.getD (i - 1) defaultStateRow).state ∧
    (dayRecAt sqrtA cfg warmup rows i).usedVix =
      (rows.getD (i - 1) defaultStateRow).vix ∧
    (dayRecAt sqrtA cfg warmup rows i).usedYc =
      (rows.getD (i - 1) defaultStateRow).yieldCurve ∧
    (dayRecAt sqrtA cfg warmup rows i).usedSahm =
      (rows.getD (i - 1) defaultStateRow).sahm ∧
    (dayRecAt sqrtA cfg warmup rows i).usedCorr =
      (rows.getD (i - 1) defaultStateRow).corr ∧
    (dayRecAt sqrtA cfg warmup rows i).decisionIdx = i - 1 := by
  have hp := stateAfter_prevRowIdx sqrtA cfg warmup rows i
  rw [if_neg (by omega)] at hp
  unfold dayRecAt
  refine ⟨?_, ?_, ?_, ?_, ?_, ?_⟩
  · rw [step_rawState, hp]; rfl
  · rw [step_usedVix, hp]; rfl
  · rw [step_usedYc, hp]; rfl
  · rw [step_usedSahm, hp]; rfl
  · rw [step_usedCorr, hp]; rfl
  · rw [step_decisionIdx, hp]; rfl

/-- Claim C3, witness: the amended theorem applied to a concrete two-row run
at the second date. -/
theorem C3_witness :
    (dayRecAt qSqrt ⟨10000, 200, "Daily", 10⟩ []
      [⟨⟨0, 1⟩, "CAUTIOUS_VOL", false, false, some 25, none, none, none,
        ⟨100, 100, 100, 100, 100, 100, 100, 100⟩⟩,
       ⟨⟨1, 1⟩, "NEUTRAL", false, false, some 15, none, none, none,
        ⟨100, 100, 100, 100, 100, 100, 100, 100⟩⟩] 1).rawState = "CAUTIOUS_VOL" :=
  ((C3_lagged_signals qSqrt ⟨10000, 200, "Daily", 10⟩ []
      [⟨⟨0, 1⟩, "CAUTIOUS_VOL", false, false, some 25, none, none, none,
        ⟨100, 100, 100, 100, 100, 100, 100, 100⟩⟩,
       ⟨⟨1, 1⟩, "NEUTRAL", false, false, some 15, none, none, none,
        ⟨100, 100, 100, 100, 100, 100, 100, 100⟩⟩] 1 (by decide)).1).trans rfl

/-! Claim C4: two-run no-lookahead.  Each simulated day reads the input
tables only at indices up to its own; two runs whose inputs agree up to a
date agree on everything up to that date. -/

lemma getD_take {α : Type} (l : List α) (n j : ℕ) (d : α) (hj : j < n) :
    (l.take n).getD j d = l.getD j d := by
  induction l generalizing n j with
  | nil => simp
  | cons a t ih =>
    cases n with
    | zero => omega
    | succ m =>
      cases j with
      | zero => simp
      | succ k => simpa using ih m k (by omega)

lemma getD_eq_of_take {α : Type} (l1 l2 : List α) (n j : ℕ) (d : α)
    (h : l1.take n = l2.take n) (hj : j < n) : l1.getD j d = l2.getD j d := by
  have h1 : (l1.take n).getD j d = (l2.take n).getD j d := by rw [h]
  rwa [getD_take l1 n j d hj, getD_take l2 n j d hj] at h1

lemma take_mono_eq {α : Type} (l1 l2 : List α) (m n : ℕ)
    (h : l1.take n = l2.take n) (hm : m ≤ n) : l1.take m = l2.take m := by
  have h1 : (l1.take n).take m = (l2.take n).take m := by rw [h]
  rwa [List.take_take, List.take_take, min_eq_left hm] at h1

lemma priceHist_congr_take (wu : List (AssetMap ℚ)) (l1 l2 : List StateRow) (j n : ℕ)
    (h : l1.take n = l2.take n) (hj : j < n) :
    priceHist wu l1 j = priceHist wu l2 j := by
  unfold priceHist
  rw [List.take_append_eq_append_take, List.take_append_eq_append_take]
  have harith : wu.length + j + 1 - wu.length = j + 1 := by omega
  rw [harith, ← List.map_take, ← List.map_take,
    take_mono_eq l1 l2 (j + 1) n h (by omega)]

lemma trendBearAt_congr_take (wu : List (AssetMap ℚ)) (l1 l2 : List StateRow) (mw : ℕ)
    (get : AssetMap ℚ → ℚ) (j n : ℕ) (h : l1.take n = l2.take n) (hj : j < n) :
    trendBearAt wu l1 mw get j = trendBearAt wu l2 mw get j := by
  unfold trendBearAt maAt lastPrice
  rw [priceHist_congr_take wu l1 l2 j n h hj]

lemma momentumAt_congr_take (wu : List (AssetMap ℚ)) (l1 l2 : List StateRow) (mw : ℕ)
    (get : AssetMap ℚ → ℚ) (j n : ℕ) (h : l1.take n = l2.take n) (hj : j < n) :
    momentumAt wu l1 mw get j = momentumAt wu l2 mw get j := by
  unfold momentumAt maAt lastPrice
  rw [priceHist_congr_take wu l1 l2 j n h hj]

lemma trendsAt_congr_take (wu : List (AssetMap ℚ)) (l1 l2 : List StateRow) (mw j n : ℕ)
    (h : l1.take n = l2.take n) (hj : j < n) :
    trendsAt wu l1 mw j = trendsAt wu l2 mw j := by
  unfold trendsAt
  rw [trendBearAt_congr_take wu l1 l2 mw (fun w => w.iwy) j n h hj,
    trendBearAt_congr_take wu l1 l2 mw (fun w => w.wtmf) j n h hj,
    trendBearAt_congr_take wu l1 l2 mw (fun w => w.lvhi) j n h hj,
    trendBearAt_congr_take wu l1 l2 mw (fun w => w.g3b) j n h hj,
    trendBearAt_congr_take wu l1 l2 mw (fun w => w.mbh) j n h hj,
    trendBearAt_congr_take wu l1 l2 mw (fun w => w.gsd) j n h hj,
    trendBearAt_congr_take wu l1 l2 mw (fun w => w.srt) j n h hj,
    trendBearAt_congr_take wu l1 l2 mw (fun w => w.ajbu) j n h hj]

lemma momentumScoresAt_congr_take (wu : List (AssetMap ℚ)) (l1 l2 : List StateRow)
    (mw j n : ℕ) (h : l1.take n = l2.take n) (hj : j < n) :
    momentumScoresAt wu l1 mw j = momentumScoresAt wu l2 mw j := by
  unfold momentumScoresAt
  rw [momentumAt_congr_take wu l1 l2 mw (fun w => w.iwy) j n h hj,
    momentumAt_congr_take wu l1 l2 mw (fun w => w.wtmf) j n h hj,
    momentumAt_congr_take wu l1 l2 mw (fun w => w.lvhi) j n h hj,
    momentumAt_congr_take wu l1 l2 mw (fun w => w.g3b) j n h hj,
    momentumAt_congr_take wu l1 l2 mw (fun w => w.mbh) j n h hj,
    momentumAt_congr_take wu l1 l2 mw (fun w => w.gsd) j n h hj,
    momentumAt_congr_take wu l1 l2 mw (fun w => w.srt) j n h hj,
    momentumAt_congr_take wu l1 l2 mw (fun w => w.ajbu) j n h hj]

lemma vixPeakAt_congr_take (l1 l2 : List StateRow) (d n : ℕ)
    (h : l1.take n = l2.take n) (hd : d < n) : vixPeakAt l1 d = vixPeakAt l2 d := by
  unfold vixPeakAt
  rw [take_mono_eq l1 l2 (d + 1) n h (by omega)]

lemma ycRecentlyInvertedAt_congr_take (l1 l2 : List StateRow) (d n : ℕ)
    (h : l1.take n = l2.take n) (hd : d < n) :
    ycRecentlyInvertedAt l1 d = ycRecentlyInvertedAt l2 d := by
  unfold ycRecentlyInvertedAt
  rw [take_mono_eq l1 l2 (d + 1) n h (by omega)]

lemma returnsAt_congr_take (l1 l2 : List StateRow) (i n : ℕ)
    (h : l1.take n = l2.take n) (hi : i < n) : returnsAt l1 i = returnsAt l2 i := by
  unfold returnsAt
  rw [getD_eq_of_take l1 l2 n i defaultStateRow h hi,
    getD_eq_of_take l1 l2 n (i - 1) defaultStateRow h (by omega)]

lemma dayInputsAt_congr_take (cfg : BTConfig) (wu : List (AssetMap ℚ))
    (l1 l2 : List StateRow) (i decIdx n : ℕ) (h : l1.take n = l2.take n)
    (hi : i < n) (hd : decIdx < n) :
    dayInputsAt cfg wu l1 i decIdx = dayInputsAt cfg wu l2 i decIdx := by
  simp only [dayInputsAt]
  rw [getD_eq_of_take l1 l2 n decIdx defaultStateRow h hd,
    getD_eq_of_take l1 l2 n i defaultStateRow h hi,
    trendsAt_congr_take wu l1 l2 cfg.ma_window decIdx n h hd,
    momentumScoresAt_congr_take wu l1 l2 cfg.ma_window decIdx n h hd,
    vixPeakAt_congr_take l1 l2 decIdx n h hd,
    ycRecentlyInvertedAt_congr_take l1 l2 decIdx n h hd,
    returnsAt_congr_take l1 l2 i n h hi]

lemma step_congr_take (sqrtA : ℚ → ℚ) (cfg : BTConfig) (wu : List (AssetMap ℚ))
    (l1 l2 : List StateRow) (i n : ℕ) (st : SimState)
    (h : l1.take n = l2.take n) (hi : i < n)
    (hd : st.prevRowIdx.getD i < n) :
    step sqrtA cfg wu l1 i st = step sqrtA cfg wu l2 i st := by
  simp only [step]
  rw [getD_eq_of_take l1 l2 n (st.prevRowIdx.getD i) defaultStateRow h hd,
    dayInputsAt_congr_take cfg wu l1 l2 i (st.prevRowIdx.getD i) n h hi hd]

lemma stateAfter_congr_take (sqrtA : ℚ → ℚ) (cfg : BTConfig) (wu : List (AssetMap ℚ))
    (l1 l2 : List StateRow) (D : ℕ) (h : l1.take (D + 1) = l2.take (D + 1)) :
    ∀ i, i ≤ D + 1 → stateAfter sqrtA cfg wu l1 i = stateAfter sqrtA cfg wu l2 i := by
  intro i
  induction i with
  | zero => intro _; rfl
  | succ m ih =>
    intro him
    have hm := ih (by omega)
    have hd : (stateAfter sqrtA cfg wu l1 m).prevRowIdx.getD m < D + 1 := by
      rw [stateAfter_prevRowIdx]
      split <;> simp <;> omega
    simp only [stateAfter]
    rw [← hm]
    exact congrArg Prod.fst
      (step_congr_take sqrtA cfg wu l1 l2 m (D + 1) _ h (by omega) hd)

/-- Claim C4 (confirmed).  No-lookahead as a two-run property: for any two
input histories (state/feature rows with prices) that agree on all rows up to
and including index `D` (and share the pre-start warmup prices and the
configuration), the simulator produces identical per-date history records —
in particular identical applied weight maps and regime decisions — and
identical NAV values on every date up to and including `D`, and identical
carried state up to day `D + 1`. -/
theorem C4_no_lookahead (sqrtA : ℚ → ℚ) (cfg : BTConfig) (wu : List (AssetMap ℚ))
    (rows1 rows2 : List StateRow) (D : ℕ)
    (h : rows1.take (D + 1) = rows2.take (D + 1)) :
    (∀ i, i ≤ D → dayRecAt sqrtA cfg wu rows1 i = dayRecAt sqrtA cfg wu rows2 i) ∧
    (∀ i, i ≤ D → navAt sqrtA cfg wu rows1 i = navAt sqrtA cfg wu rows2 i) ∧
    (∀ i, i ≤ D + 1 → stateAfter sqrtA cfg wu rows1 i = stateAfter sqrtA cfg wu rows2 i) := by
  have hstate := stateAfter_congr_take sqrtA cfg wu rows1 rows2 D h
  have hrec : ∀ i, i ≤ D → dayRecAt sqrtA cfg wu rows1 i = dayRecAt sqrtA cfg wu rows2 i := by
    intro i hiD
    unfold dayRecAt
    have hd : (stateAfter sqrtA cfg wu rows1 i).prevRowIdx.getD i < D + 1 := by
      rw [stateAfter_prevRowIdx]
      split <;> simp <;> omega
    rw [← hstate i (by omega)]
    exact congrArg Prod.snd
      (step_congr_take sqrtA cfg wu rows1 rows2 i (D + 1) _ h (by omega) hd)
  exact ⟨hrec, fun i hi => congrArg DayRec.nav (hrec i hi), hstate⟩

/-- Claim C4, witness: two concrete three-row histories that agree on the
first two rows and differ in the third (different price and state after date
`D = 1`) produce the same NAV on date 1. -/
theorem C4_witness :
    navAt qSqrt ⟨10000, 200, "Daily", 10⟩ []
      [⟨⟨0, 1⟩, "NEUTRAL", false, false, none, none, none, none,
        ⟨100, 100, 100, 100, 100, 100, 100, 100⟩⟩,
       ⟨⟨1, 1⟩, "NEUTRAL", false, false, none, none, none, none,
        ⟨110, 100, 100, 100, 100, 100, 100, 100⟩⟩,
       ⟨⟨2, 1⟩, "NEUTRAL", false, false, none, none, none, none,
        ⟨120, 100, 100, 100, 100, 100, 100, 100⟩⟩] 1 =
    navAt qSqrt ⟨10000, 200, "Daily", 10⟩ []
      [⟨⟨0, 1⟩, "NEUTRAL", false, false, none, none, none, none,
        ⟨100, 100, 100, 100, 100, 100, 100, 100⟩⟩,
       ⟨⟨1, 1⟩, "NEUTRAL", false, false, none, none, none, none,
        ⟨110, 100, 100, 100, 100, 100, 100, 100⟩⟩,
       ⟨⟨2, 1⟩, "CAUTIOUS_VOL", false, false, some 40, none, none, none,
        ⟨60, 100, 100, 100, 100, 100, 100, 100⟩⟩] 1 :=
  (C4_no_lookahead qSqrt ⟨10000, 200, "Daily", 10⟩ []
    [⟨⟨0, 1⟩, "NEUTRAL", false, false, none, none, none, none,
      ⟨100, 100, 100, 100, 100, 100, 100, 100⟩⟩,
     ⟨⟨1, 1⟩, "NEUTRAL", false, false, none, none, none, none,
      ⟨110, 100, 100, 100, 100, 100, 100, 100⟩⟩,
     ⟨⟨2, 1⟩, "NEUTRAL", false, false, none, none, none, none,
      ⟨120, 100, 100, 100, 100, 100, 100, 100⟩⟩]
    [⟨⟨0, 1⟩, "NEUTRAL", false, false, none, none, none, none,
      ⟨100, 100, 100, 100, 100, 100, 100, 100⟩⟩,
     ⟨⟨1, 1⟩, "NEUTRAL", false, false, none, none, none, none,
      ⟨110, 100, 100, 100, 100, 100, 100, 100⟩⟩,
     ⟨⟨2, 1⟩, "CAUTIOUS_VOL", false, false, some 40, none, none, none,
      ⟨60, 100, 100, 100, 100, 100, 100, 100⟩⟩] 1 rfl).2.1 1 (by omega)

/-! Claim C5: a single-day spike in the raw regime.  Machinery: two input
histories that differ only in the `State` column feed identical inputs to
everything except the confirmation machine. -/

/-- All columns of the two histories agree except possibly `State`. -/
structure rowsAgree (l1 l2 : List StateRow) : Prop where
  prices : l1.map (fun r => r.prices) = l2.map (fun r => r.prices)
  vix : l1.map (fun r => r.vix) = l2.map (fun r => r.vix)
  yc : l1.map (fun r => r.yieldCurve) = l2.map (fun r => r.yieldCurve)
  sahm : l1.map (fun r => r.sahm) = l2.map (fun r => r.sahm)
  corr : l1.map (fun r => r.corr) = l2.map (fun r => r.corr)
  gb : l1.map (fun r => r.goldBear) = l2.map (fun r => r.goldBear)
  vr : l1.map (fun r => r.valueRegime) = l2.map (fun r => r.valueRegime)
  date : l1.map (fun r => r.date) = l2.map (fun r => r.date)

lemma map_proj_getD {α β : Type} (f : α → β) :
    ∀ (l1 l2 : List α) (j : ℕ) (d : α), l1.map f = l2.map f →
      f (l1.getD j d) = f (l2.getD j d)
  | [], [], _, _, _ => rfl
  | [], _ :: _, _, _, h => by simp at h
  | _ :: _, [], _, _, h => by simp at h
  | a :: t1, b :: t2, j, d, h => by
    simp only [List.map_cons, List.cons.injEq] at h
    cases j with
    | zero => simpa using h.1
    | succ m => simpa using map_proj_getD f t1 t2 m d h.2

lemma filterMap_congr_of_map_eq {α β : Type} (g : α → Option β) :
    ∀ (l1 l2 : List α), l1.map g = l2.map g → l1.filterMap g = l2.filterMap g
  | [], [], _ => rfl
  | [], _ :: _, h => by simp at h
  | _ :: _, [], h => by simp at h
  | a :: t1, b :: t2, h => by
    simp only [List.map_cons, List.cons.injEq] at h
    rw [List.filterMap_cons, List.filterMap_cons, h.1,
      filterMap_congr_of_map_eq g t1 t2 h.2]

lemma map_set_proj {α β : Type} (f : α → β) :
    ∀ (l : List α) (k : ℕ) (a d : α), f a = f (l.getD k d) →
      (l.set k a).map f = l.map f
  | [], _, _, _, _ => rfl
  | x :: t, 0, a, d, hf => by
    simp only [List.getD_cons_zero] at hf
    simp [hf]
  | x :: t, k + 1, a, d, hf => by
    simp only [List.getD_cons_succ] at hf
    simp only [List.set_cons_succ, List.map_cons]
    rw [map_set_proj f t k a d hf]

lemma getD_set_ne {α : Type} : ∀ (l : List α) (k j : ℕ) (a d : α), j ≠ k →
    (l.set k a).getD j d = l.getD j d
  | [], _, _, _, _, _ => rfl
  | x :: t, 0, 0, a, d, h => absurd rfl h
  | x :: t, 0, j + 1, a, d, _ => by simp
  | x :: t, k + 1, 0, a, d, _ => by simp
  | x :: t, k + 1, j + 1, a, d, h => by
    simp only [List.set_cons_succ, List.getD_cons_succ]
    exact getD_set_ne t k j a d (by omega)

lemma getD_set_self {α : Type} : ∀ (l : List α) (k : ℕ) (a d : α), k < l.length →
    (l.set k a).getD k d = a
  | [], _, _, _, h => by simp at h
  | x :: t, 0, a, d, _ => rfl
  | x :: t, k + 1, a, d, h => by
    simp only [List.set_cons_succ, List.getD_cons_succ]
    exact getD_set_self t k a d (by simpa using h)

/-- Setting the state of row `k` leaves every other column map unchanged. -/
lemma rowsAgree_set_state (rows : List StateRow) (k : ℕ) (X : String) :
    rowsAgree (rows.set k { rows.getD k defaultStateRow with state := X }) rows :=
  ⟨map_set_proj _ rows k _ defaultStateRow rfl, map_set_proj _ rows k _ defaultStateRow rfl,
   map_set_proj _ rows k _ defaultStateRow rfl, map_set_proj _ rows k _ defaultStateRow rfl,
   map_set_proj _ rows k _ defaultStateRow rfl, map_set_proj _ rows k _ defaultStateRow rfl,
   map_set_proj _ rows k _ defaultStateRow rfl, map_set_proj _ rows k _ defaultStateRow rfl⟩

lemma dayInputsAt_congr_agree (cfg : BTConfig) (wu : List (AssetMap ℚ))
    (l1 l2 : List StateRow) (i decIdx : ℕ) (hA : rowsAgree l1 l2) :
    dayInputsAt cfg wu l1 i decIdx = dayInputsAt cfg wu l2 i decIdx := by
  obtain ⟨hp, hv, hy, hs, hc, hg, hvr, hd⟩ := hA
  have hph : ∀ j, priceHist wu l1 j = priceHist wu l2 j := by
    intro j
    unfold priceHist
    rw [hp]
  have htr : trendsAt wu l1 cfg.ma_window decIdx = trendsAt wu l2 cfg.ma_window decIdx := by
    unfold trendsAt trendBearAt maAt lastPrice
    rw [hph]
  have hmo : momentumScoresAt wu l1 cfg.ma_window decIdx =
      momentumScoresAt wu l2 cfg.ma_window decIdx := by
    unfold momentumScoresAt momentumAt maAt lastPrice
    rw [hph]
  have hvp : vixPeakAt l1 decIdx = vixPeakAt l2 decIdx := by
    unfold vixPeakAt
    congr 1
    apply filterMap_congr_of_map_eq
    rw [List.map_drop, List.map_drop, List.map_take, List.map_take, hv]
  have hyi : ycRecentlyInvertedAt l1 decIdx = ycRecentlyInvertedAt l2 decIdx := by
    unfold ycRecentlyInvertedAt
    have : ((l1.take (decIdx + 1)).drop (decIdx - 252)).filterMap (fun r => r.yieldCurve) =
        ((l2.take (decIdx + 1)).drop (decIdx - 252)).filterMap (fun r => r.yieldCurve) := by
      apply filterMap_congr_of_map_eq
      rw [List.map_drop, List.map_drop, List.map_take, List.map_take, hy]
    rw [this]
  have hrets : returnsAt l1 i = returnsAt l2 i := by
    unfold returnsAt
    rw [show (l1.getD (i - 1) defaultStateRow).prices = (l2.getD (i - 1) defaultStateRow).prices
        from map_proj_getD _ l1 l2 (i - 1) defaultStateRow hp,
      show (l1.getD i defaultStateRow).prices = (l2.getD i defaultStateRow).prices
        from map_proj_getD _ l1 l2 i defaultStateRow hp]
  simp only [dayInputsAt]
  rw [htr, hmo, hvp, hyi, hrets,
    show (l1.getD i defaultStateRow).date = (l2.getD i defaultStateRow).date
      from map_proj_getD _ l1 l2 i defaultStateRow hd,
    show (l1.getD decIdx defaultStateRow).goldBear = (l2.getD decIdx defaultStateRow).goldBear
      from map_proj_getD _ l1 l2 decIdx defaultStateRow hg,
    show (l1.getD decIdx defaultStateRow).valueRegime =
        (l2.getD decIdx defaultStateRow).valueRegime
      from map_proj_getD _ l1 l2 decIdx defaultStateRow hvr,
    show (l1.getD decIdx defaultStateRow).vix = (l2.getD decIdx defaultStateRow).vix
      from map_proj_getD _ l1 l2 decIdx defaultStateRow hv,
    show (l1.getD decIdx defaultStateRow).yieldCurve =
        (l2.getD decIdx defaultStateRow).yieldCurve
      from map_proj_getD _ l1 l2 decIdx defaultStateRow hy,
    show (l1.getD decIdx defaultStateRow).sahm = (l2.getD decIdx defaultStateRow).sahm
      from map_proj_getD _ l1 l2 decIdx defaultStateRow hs,
    show (l1.getD decIdx defaultStateRow).corr = (l2.getD decIdx defaultStateRow).corr
      from map_proj_getD _ l1 l2 decIdx defaultStateRow hc]

lemma step_congr_agree (sqrtA : ℚ → ℚ) (cfg : BTConfig) (wu : List (AssetMap ℚ))
    (l1 l2 : List StateRow) (i : ℕ) (st : SimState) (hA : rowsAgree l1 l2)
    (hraw : (l1.getD (st.prevRowIdx.getD i) defaultStateRow).state =
      (l2.getD (st.prevRowIdx.getD i) defaultStateRow).state) :
    step sqrtA cfg wu l1 i st = step sqrtA cfg wu l2 i st := by
  simp only [step]
  rw [hraw, dayInputsAt_congr_agree cfg wu l1 l2 i (st.prevRowIdx.getD i) hA]

/-- The non-confirmation part of a day ignores the confirmation component of
the carried state. -/
lemma stepCore_confirm_irrel (sqrtA : ℚ → ℚ) (cfg : BTConfig) (i decIdx : ℕ)
    (inp : DayInputs) (cv : ℚ) (hr : List ℚ) (pk : ℚ) (sl : Bool)
    (A B : ConfirmState) (tf : Option (AssetMap ℚ)) (td : ℕ) (it : Bool)
    (pt pr : Option (AssetMap ℚ)) (pd : Option SimDate) (pri : Option ℕ)
    (sConf : Option String) (dc : Bool) :
    stepCore sqrtA cfg i decIdx inp ⟨cv, hr, pk, sl, A, tf, td, it, pt, pr, pd, pri⟩ sConf dc =
      stepCore sqrtA cfg i decIdx inp ⟨cv, hr, pk, sl, B, tf, td, it, pt, pr, pd, pri⟩
        sConf dc := rfl

lemma confirmStep_same (c : String) (P : Option String) (n : ℕ) :
    confirmStep ⟨some c, P, n⟩ c = (⟨some c, none, 0⟩, false) := by
  simp [confirmStep]

lemma confirmStep_newPending (c X : String) (P : Option String) (n : ℕ)
    (hX : X ≠ c) (hP : P ≠ some X) :
    confirmStep ⟨some c, P, n⟩ X = (⟨some c, some X, 1⟩, false) := by
  simp only [confirmStep]
  rw [if_pos hX, if_neg hP]

lemma step_confirm (sqrtA : ℚ → ℚ) (cfg : BTConfig) (wu : List (AssetMap ℚ))
    (rows : List StateRow) (i : ℕ) (st : SimState) :
    (step sqrtA cfg wu rows i st).1.confirm =
      (confirmStep st.confirm
        ((rows.getD (st.prevRowIdx.getD i) defaultStateRow).state)).1 := rfl

lemma stateAfter_succ (sqrtA : ℚ → ℚ) (cfg : BTConfig) (wu : List (AssetMap ℚ))
    (rows : List StateRow) (i : ℕ) :
    stateAfter sqrtA cfg wu rows (i + 1) =
      (step sqrtA cfg wu rows i (stateAfter sqrtA cfg wu rows i)).1 := rfl

/-- The spike step: with the confirmed regime `c`, a one-day raw regime `X`
(not already pending) sets the pending counter to 1 and otherwise produces
exactly the state and record of the run that saw `c`. -/
lemma step_spike_pair (sqrtA : ℚ → ℚ) (cfg : BTConfig) (wu : List (AssetMap ℚ))
    (l1 l2 : List StateRow) (i : ℕ) (st : SimState) (c X : String)
    (hA : rowsAgree l1 l2)
    (hraw1 : (l1.getD (st.prevRowIdx.getD i) defaultStateRow).state = X)
    (hraw2 : (l2.getD (st.prevRowIdx.getD i) defaultStateRow).state = c)
    (hcs : st.confirm.confirmed = some c)
    (hpend : st.confirm.pending ≠ some X) (hXc : X ≠ c) :
    (step sqrtA cfg wu l1 i st).1 =
      { (step sqrtA cfg wu l2 i st).1 with confirm := ⟨some c, some X, 1⟩ } ∧
    (step sqrtA cfg wu l1 i st).2 =
      { (step sqrtA cfg wu l2 i st).2 with
        rawState := X
        pendingDaysAfter := 1 } ∧
    (step sqrtA cfg wu l2 i st).1.confirm = ⟨some c, none, 0⟩ := by
  have hcs2 : st.confirm = ⟨some c, st.confirm.pending, st.confirm.pendingDays⟩ := by
    rw [← hcs]
  simp only [step]
  rw [hraw1, hraw2, hcs2,
    confirmStep_newPending c X st.confirm.pending st.confirm.pendingDays hXc hpend,
    confirmStep_same c st.confirm.pending st.confirm.pendingDays,
    dayInputsAt_congr_agree cfg wu l1 l2 i (st.prevRowIdx.getD i) hA]
  exact ⟨rfl, rfl, rfl⟩

/-- A pending candidate in the carried state is irrelevant once the raw
regime equals the confirmed regime again: the step resets the counter and
produces the same outputs as the run that never had the pending candidate. -/
lemma step_pending_irrel (sqrtA : ℚ → ℚ) (cfg : BTConfig) (wu : List (AssetMap ℚ))
    (rows : List StateRow) (i : ℕ) (cv : ℚ) (hr : List ℚ) (pk : ℚ) (sl : Bool)
    (tf : Option (AssetMap ℚ)) (td : ℕ) (it : Bool) (pt pr : Option (AssetMap ℚ))
    (pd : Option SimDate) (pri : Option ℕ) (c : String) (P : Option String) (n : ℕ)
    (hraw : (rows.getD (pri.getD i) defaultStateRow).state = c) :
    step sqrtA cfg wu rows i
        ⟨cv, hr, pk, sl, ⟨some c, P, n⟩, tf, td, it, pt, pr, pd, pri⟩ =
      step sqrtA cfg wu rows i
        ⟨cv, hr, pk, sl, ⟨some c, none, 0⟩, tf, td, it, pt, pr, pd, pri⟩ := by
  simp only [step]
  rw [hraw, confirmStep_same c P n, confirmStep_same c none 0,
    stepCore_confirm_irrel sqrtA cfg i (pri.getD i) (dayInputsAt cfg wu rows i (pri.getD i))
      cv hr pk sl ⟨some c, P, n⟩ ⟨some c, none, 0⟩ tf td it pt pr pd pri
      ((⟨some c, none, 0⟩, false) : ConfirmState × Bool).1.confirmed false]

/-- Composite recovery step: one run carries a leftover pending candidate,
the other does not; both see the confirmed regime as the raw state and their
histories agree outside the `State` column, so the steps coincide. -/
lemma step_spike_recovery (sqrtA : ℚ → ℚ) (cfg : BTConfig) (wu : List (AssetMap ℚ))
    (l1 l2 : List StateRow) (i : ℕ) (st : SimState) (c : String) (P : Option String)
    (n : ℕ) (hA : rowsAgree l1 l2) (hst : st.confirm = ⟨some c, none, 0⟩)
    (hraw1 : (l1.getD (st.prevRowIdx.getD i) defaultStateRow).state = c)
    (hraw2 : (l2.getD (st.prevRowIdx.getD i) defaultStateRow).state = c) :
    step sqrtA cfg wu l1 i { st with confirm := ⟨some c, P, n⟩ } =
      step sqrtA cfg wu l2 i st := by
  rcases st with ⟨cv, hr, pk, sl, cf, tf, td, it, pt, pr, pd, pri⟩
  dsimp only at hst hraw1 hraw2 ⊢
  subst hst
  rw [step_pending_irrel sqrtA cfg wu l1 i cv hr pk sl tf td it pt pr pd pri c P n hraw1]
  exact step_congr_agree sqrtA cfg wu l1 l2 i _ hA (hraw1.trans hraw2.symm)

/-- Claim C5 (confirmed).  A single-day spike in the raw classifier output
(the `State` column of row `k`, replaced by `X` while the surrounding days
read the confirmed regime `c`, and `X` not already pending) never changes the
confirmed regime or the applied weights: on every date, the confirmed regime,
applied weight map, turnover and NAV of the spiked run equal those of the
original run; and reverting to the already-confirmed regime resets the
pending counter — it is 1 after the spike day is processed and 0 after the
next day. -/
theorem C5_single_day_spike (sqrtA : ℚ → ℚ) (cfg : BTConfig) (wu : List (AssetMap ℚ))
    (rows rows2 : List StateRow) (k : ℕ) (c X : String)
    (hrows2 : rows2 = rows.set k { rows.getD k defaultStateRow with state := X })
    (hk1 : 1 ≤ k) (hk : k < rows.length)
    (hck : (rows.getD k defaultStateRow).state = c)
    (hck1 : (rows.getD (k + 1) defaultStateRow).state = c)
    (hprev : (rows.getD (k - 1) defaultStateRow).state ≠ X)
    (hXc : X ≠ c)
    (hconf : (stateAfter sqrtA cfg wu rows (k + 1)).confirm.confirmed = some c) :
    (∀ j, (dayRecAt sqrtA cfg wu rows2 j).state = (dayRecAt sqrtA cfg wu rows j).state ∧
      (dayRecAt sqrtA cfg wu rows2 j).finalWeights =
        (dayRecAt sqrtA cfg wu rows j).finalWeights ∧
      (dayRecAt sqrtA cfg wu rows2 j).nav = (dayRecAt sqrtA cfg wu rows j).nav ∧
      (dayRecAt sqrtA cfg wu rows2 j).turnover = (dayRecAt sqrtA cfg wu rows j).turnover) ∧
    (stateAfter sqrtA cfg wu rows2 (k + 2)).confirm.pendingDays = 1 ∧
    (stateAfter sqrtA cfg wu rows2 (k + 3)).confirm.pendingDays = 0 := by
  subst hrows2
  have hA := rowsAgree_set_state rows k X
  have hrawne : ∀ j, j ≠ k →
      ((rows.set k { rows.getD k defaultStateRow with state := X }).getD j
        defaultStateRow).state = (rows.getD j defaultStateRow).state := by
    intro j hj
    rw [getD_set_ne rows k j _ defaultStateRow hj]
  have hrawk : ((rows.set k { rows.getD k defaultStateRow with state := X }).getD k
      defaultStateRow).state = X := by
    rw [getD_set_self rows k _ defaultStateRow hk]
  have hpri : ∀ m : ℕ, (stateAfter sqrtA cfg wu rows m).prevRowIdx.getD m =
      if m = 0 then m else m - 1 := by
    intro m
    rw [stateAfter_prevRowIdx]
    split <;> simp [*]
  have hstates : ∀ j, j ≤ k + 1 →
      stateAfter sqrtA cfg wu (rows.set k { rows.getD k defaultStateRow with state := X }) j =
        stateAfter sqrtA cfg wu rows j := by
    intro j
    induction j with
    | zero => intro _; rfl
    | succ m ih =>
      intro hm
      rw [stateAfter_succ, stateAfter_succ, ih (by omega)]
      refine congrArg Prod.fst (step_congr_agree sqrtA cfg wu _ rows m _ hA ?_)
      apply hrawne
      rw [hpri m]
      split <;> omega
  have hpend : (stateAfter sqrtA cfg wu rows (k + 1)).confirm.pending ≠ some X := by
    rw [stateAfter_succ, step_confirm]
    rcases confirmStep_pending_eq (stateAfter sqrtA cfg wu rows k).confirm
        ((rows.getD ((stateAfter sqrtA cfg wu rows k).prevRowIdx.getD k)
          defaultStateRow).state) with h | h
    · rw [h]
      simp
    · rw [h]
      have hdk : (stateAfter sqrtA cfg wu rows k).prevRowIdx.getD k = k - 1 := by
        rw [hpri k, if_neg (by omega)]
      rw [hdk]
      simp only [ne_eq, Option.some.injEq]
      intro hEq
      exact hprev hEq
  have hdk1 : (stateAfter sqrtA cfg wu rows (k + 1)).prevRowIdx.getD (k + 1) = k := by
    rw [hpri (k + 1), if_neg (by omega)]
    omega
  have hsp := step_spike_pair sqrtA cfg wu
    (rows.set k { rows.getD k defaultStateRow with state := X }) rows (k + 1)
    (stateAfter sqrtA cfg wu rows (k + 1)) c X hA
    (by rw [hdk1]; exact hrawk) (by rw [hdk1]; exact hck) hconf hpend hXc
  have hkey2 : stateAfter sqrtA cfg wu
      (rows.set k { rows.getD k defaultStateRow with state := X }) (k + 2) =
      { stateAfter sqrtA cfg wu rows (k + 2) with confirm := ⟨some c, some X, 1⟩ } := by
    conv_lhs => rw [stateAfter_succ]
    rw [hstates (k + 1) le_rfl, hsp.1]
    conv_rhs => rw [stateAfter_succ]
  have hS2conf : (stateAfter sqrtA cfg wu rows (k + 2)).confirm = ⟨some c, none, 0⟩ := by
    rw [stateAfter_succ]
    exact hsp.2.2
  have hdk2 : (stateAfter sqrtA cfg wu rows (k + 2)).prevRowIdx.getD (k + 2) = k + 1 := by
    rw [hpri (k + 2), if_neg (by omega)]
    omega
  have hrecov := step_spike_recovery sqrtA cfg wu
    (rows.set k { rows.getD k defaultStateRow with state := X }) rows (k + 2)
    (stateAfter sqrtA cfg wu rows (k + 2)) c (some X) 1 hA hS2conf
    (by rw [hdk2]; rw [hrawne (k + 1) (by omega)]; exact hck1)
    (by rw [hdk2]; exact hck1)
  have hkey3 : stateAfter sqrtA cfg wu
      (rows.set k { rows.getD k defaultStateRow with state := X }) (k + 3) =
      stateAfter sqrtA cfg wu rows (k + 3) := by
    conv_lhs => rw [stateAfter_succ]
    conv_rhs => rw [stateAfter_succ]
    rw [hkey2]
    exact congrArg Prod.fst hrecov
  have hstates3 : ∀ j, k + 3 ≤ j →
      stateAfter sqrtA cfg wu (rows.set k { rows.getD k defaultStateRow with state := X }) j =
        stateAfter sqrtA cfg wu rows j := by
    intro j
    induction j with
    | zero => intro h; omega
    | succ m ih =>
      intro hj
      rcases Nat.lt_or_ge m (k + 3) with hm | hm
      · have hmk : m + 1 = k + 3 := by omega
        rw [hmk]
        exact hkey3
      · rw [stateAfter_succ, stateAfter_succ, ih hm]
        refine congrArg Prod.fst (step_congr_agree sqrtA cfg wu _ rows m _ hA ?_)
        apply hrawne
        rw [hpri m]
        split <;> omega
  refine ⟨?_, ?_, ?_⟩
  · intro j
    rcases Nat.lt_or_ge j (k + 1) with hj | hj
    · have h1 : dayRecAt sqrtA cfg wu
          (rows.set k { rows.getD k defaultStateRow with state := X }) j =
          dayRecAt sqrtA cfg wu rows j := by
        unfold dayRecAt
        rw [hstates j (by omega)]
        refine congrArg Prod.snd (step_congr_agree sqrtA cfg wu _ rows j _ hA ?_)
        apply hrawne
        rw [hpri j]
        split <;> omega
      rw [h1]
      exact ⟨rfl, rfl, rfl, rfl⟩
    rcases Nat.eq_or_lt_of_le hj with hj2 | hj2
    · have hjk : j = k + 1 := hj2.symm
      subst hjk
      have h2 : dayRecAt sqrtA cfg wu
          (rows.set k { rows.getD k defaultStateRow with state := X }) (k + 1) =
          { dayRecAt sqrtA cfg wu rows (k + 1) with
            rawState := X
            pendingDaysAfter := 1 } := by
        unfold dayRecAt
        rw [hstates (k + 1) le_rfl]
        exact hsp.2.1
      rw [h2]
      exact ⟨rfl, rfl, rfl, rfl⟩
    rcases Nat.eq_or_lt_of_le hj2 with hj3 | hj3
    · have hjk : j = k + 2 := hj3.symm
      subst hjk
      have h3 : dayRecAt sqrtA cfg wu
          (rows.set k { rows.getD k defaultStateRow with state := X }) (k + 2) =
          dayRecAt sqrtA cfg wu rows (k + 2) := by
        unfold dayRecAt
        rw [hkey2]
        exact congrArg Prod.snd hrecov
      rw [h3]
      exact ⟨rfl, rfl, rfl, rfl⟩
    · have h4 : dayRecAt sqrtA cfg wu
          (rows.set k { rows.getD k defaultStateRow with state := X }) j =
          dayRecAt sqrtA cfg wu rows j := by
        unfold dayRecAt
        rw [hstates3 j (by omega)]
        refine congrArg Prod.snd (step_congr_agree sqrtA cfg wu _ rows j _ hA ?_)
        apply hrawne
        rw [hpri j]
        split <;> omega
      rw [h4]
      exact ⟨rfl, rfl, rfl, rfl⟩
  · rw [hkey2]
  · rw [hkey3, stateAfter_succ, step_confirm, hdk2, hck1, hS2conf,
      confirmStep_same c none 0]

/-- Claim C5, witness: on a concrete five-day all-`NEUTRAL` run, spiking day
2's raw state to `SPIKE` for a single day leaves the applied weights of day 3
unchanged, sets the pending counter to 1 after the spike day and resets it to
0 after the reverting day. -/
theorem C5_witness :
    (dayRecAt qSqrt c5cfg []
        (c5rows.set 2 { c5rows.getD 2 defaultStateRow with state := "SPIKE" }) 3).finalWeights =
      (dayRecAt qSqrt c5cfg [] c5rows 3).finalWeights ∧
    (stateAfter qSqrt c5cfg []
        (c5rows.set 2 { c5rows.getD 2 defaultStateRow with state := "SPIKE" }) 4).confirm.pendingDays = 1 ∧
    (stateAfter qSqrt c5cfg []
        (c5rows.set 2 { c5rows.getD 2 defaultStateRow with state := "SPIKE" }) 5).confirm.pendingDays = 0 :=
  have h := C5_single_day_spike qSqrt c5cfg [] c5rows
    (c5rows.set 2 { c5rows.getD 2 defaultStateRow with state := "SPIKE" }) 2 "NEUTRAL" "SPIKE"
    rfl (by decide) (by decide) rfl rfl (by decide) (by decide) rfl
  ⟨(h.1 3).2.1, h.2.1, h.2.2⟩

/-! Claim C8: turnover non-negativity (which holds on every simulated date)
and cost monotonicity (which fails, through the stop-loss feedback).  The
`NN` lemmas push weight non-negativity through the base table and every tilt
pass reachable from the backtest loop. -/

lemma sumW_nonneg (w : AssetMap ℚ) (h : NN w) : 0 ≤ sumW w := by
  obtain ⟨h1, h2, h3, h4, h5, h6, h7, h8⟩ := h
  unfold sumW
  linarith

lemma base_allocation_nn (s : String) (vr : Bool) (vix : Option ℚ) :
    NN (base_allocation s vr vix) := by
  rcases vix with _ | v <;>
    (unfold base_allocation NN
     dsimp only
     split_ifs <;>
       norm_num [CAUTIOUS_VOL_TIER1, CAUTIOUS_VOL_TIER2, CAUTIOUS_VOL_TIER3,
         CAUTIOUS_VOL_TIER4])

lemma trendDest_nn (s : String) (tr : AssetMap Bool) (w : AssetMap ℚ) (amt : ℚ)
    (h : NN w) (ha : 0 ≤ amt) : NN (trendDest s tr w amt) := by
  obtain ⟨h1, h2, h3, h4, h5, h6, h7, h8⟩ := h
  unfold trendDest NN
  split_ifs <;> refine ⟨?_, ?_, ?_, ?_, ?_, ?_, ?_, ?_⟩ <;> dsimp only <;> linarith

lemma trendFilterG3b_nn (s : String) (tr : AssetMap Bool) (w : AssetMap ℚ)
    (h : NN w) : NN (trendFilterG3b s tr w) := by
  obtain ⟨h1, h2, h3, h4, h5, h6, h7, h8⟩ := h
  unfold trendFilterG3b
  split_ifs with hc
  · exact trendDest_nn _ _ _ _ ⟨h1, h2, h3, le_refl 0, h5, h6, h7, h8⟩ (le_of_lt hc.1)
  · exact ⟨h1, h2, h3, h4, h5, h6, h7, h8⟩

lemma trendFilterLvhi_nn (s : String) (tr : AssetMap Bool) (w : AssetMap ℚ)
    (h : NN w) : NN (trendFilterLvhi s tr w) := by
  obtain ⟨h1, h2, h3, h4, h5, h6, h7, h8⟩ := h
  unfold trendFilterLvhi
  split_ifs with hc
  · exact trendDest_nn _ _ _ _ ⟨h1, h2, le_refl 0, h4, h5, h6, h7, h8⟩ (le_of_lt hc.1)
  · exact ⟨h1, h2, h3, h4, h5, h6, h7, h8⟩

lemma trendFilterMbh_nn (s : String) (tr : AssetMap Bool) (w : AssetMap ℚ)
    (h : NN w) : NN (trendFilterMbh s tr w) := by
  obtain ⟨h1, h2, h3, h4, h5, h6, h7, h8⟩ := h
  unfold trendFilterMbh
  split_ifs with hc
  · exact trendDest_nn _ _ _ _ ⟨h1, h2, h3, h4, le_refl 0, h6, h7, h8⟩ (le_of_lt hc.1)
  · exact ⟨h1, h2, h3, h4, h5, h6, h7, h8⟩

lemma trendFilterGsd_nn (s : String) (tr : AssetMap Bool) (w : AssetMap ℚ)
    (h : NN w) : NN (trendFilterGsd s tr w) := by
  obtain ⟨h1, h2, h3, h4, h5, h6, h7, h8⟩ := h
  unfold trendFilterGsd
  split_ifs with hc
  · exact trendDest_nn _ _ _ _ ⟨h1, h2, h3, h4, h5, le_refl 0, h7, h8⟩ (le_of_lt hc.1)
  · exact ⟨h1, h2, h3, h4, h5, h6, h7, h8⟩

lemma trendFilterSrt_nn (s : String) (tr : AssetMap Bool) (w : AssetMap ℚ)
    (h : NN w) : NN (trendFilterSrt s tr w) := by
  obtain ⟨h1, h2, h3, h4, h5, h6, h7, h8⟩ := h
  unfold trendFilterSrt
  split_ifs with hc
  · exact trendDest_nn _ _ _ _ ⟨h1, h2, h3, h4, h5, h6, le_refl 0, h8⟩ (le_of_lt hc.1)
  · exact ⟨h1, h2, h3, h4, h5, h6, h7, h8⟩

lemma trendFilterAjbu_nn (s : String) (tr : AssetMap Bool) (w : AssetMap ℚ)
    (h : NN w) : NN (trendFilterAjbu s tr w) := by
  obtain ⟨h1, h2, h3, h4, h5, h6, h7, h8⟩ := h
  unfold trendFilterAjbu
  split_ifs with hc
  · exact trendDest_nn _ _ _ _ ⟨h1, h2, h3, h4, h5, h6, h7, le_refl 0⟩ (le_of_lt hc.1)
  · exact ⟨h1, h2, h3, h4, h5, h6, h7, h8⟩

lemma apply_trend_filters_nn (w : AssetMap ℚ) (s : String) (tr : AssetMap Bool)
    (h : NN w) : NN (apply_trend_filters w s tr) := by
  unfold apply_trend_filters
  split_ifs
  · exact h
  · exact trendFilterAjbu_nn _ _ _ (trendFilterSrt_nn _ _ _ (trendFilterGsd_nn _ _ _
      (trendFilterMbh_nn _ _ _ (trendFilterLvhi_nn _ _ _ (trendFilterG3b_nn _ _ _ h)))))

lemma apply_vix_adjustments_nn (w : AssetMap ℚ) (s : String) (vix : Option ℚ)
    (h : NN w) : NN (apply_vix_adjustments w s vix) := by
  obtain ⟨h1, h2, h3, h4, h5, h6, h7, h8⟩ := h
  unfold apply_vix_adjustments NN
  rcases vix with _ | v
  · exact ⟨h1, h2, h3, h4, h5, h6, h7, h8⟩
  · dsimp only
    have hmin := min_le_left w.iwy (GROWTH_TO_VALUE_MAX_SHIFT *
      min ((v - VIX_GROWTH_TO_VALUE_START) /
        (VIX_GROWTH_TO_VALUE_FULL - VIX_GROWTH_TO_VALUE_START)) 1)
    split_ifs <;> refine ⟨?_, ?_, ?_, ?_, ?_, ?_, ?_, ?_⟩ <;> dsimp only <;> linarith

lemma apply_yield_curve_guard_nn (w : AssetMap ℚ) (s : String) (yc : Option ℚ)
    (h : NN w) : NN (apply_yield_curve_guard w s yc) := by
  obtain ⟨h1, h2, h3, h4, h5, h6, h7, h8⟩ := h
  unfold apply_yield_curve_guard NN
  rcases yc with _ | y <;>
    (dsimp only
     split_ifs <;> refine ⟨?_, ?_, ?_, ?_, ?_, ?_, ?_, ?_⟩ <;> dsimp only <;> linarith)

lemma apply_iwy_safety_valve_nn (w : AssetMap ℚ) (s : String) (tr : AssetMap Bool)
    (vix : Option ℚ) (h : NN w) : NN (apply_iwy_safety_valve w s tr vix) := by
  obtain ⟨h1, h2, h3, h4, h5, h6, h7, h8⟩ := h
  unfold apply_iwy_safety_valve NN
  rcases vix with _ | v <;>
    (dsimp only
     split_ifs <;> refine ⟨?_, ?_, ?_, ?_, ?_, ?_, ?_, ?_⟩ <;> dsimp only <;> linarith)

lemma apply_gold_filter_nn (w : AssetMap ℚ) (gb : Bool) (h : NN w) :
    NN (apply_gold_filter w gb) := by
  obtain ⟨h1, h2, h3, h4, h5, h6, h7, h8⟩ := h
  unfold apply_gold_filter NN
  split_ifs <;> refine ⟨?_, ?_, ?_, ?_, ?_, ?_, ?_, ?_⟩ <;> dsimp only <;> linarith

lemma apply_momentum_intensity_nn (w : AssetMap ℚ) (s : String)
    (m : AssetMap (Option ℚ)) (h : NN w) : NN (apply_momentum_intensity w s m) := by
  obtain ⟨h1, h2, h3, h4, h5, h6, h7, h8⟩ := h
  unfold apply_momentum_intensity NN
  cases hmi : m.iwy <;>
    (dsimp only
     split_ifs <;> refine ⟨?_, ?_, ?_, ?_, ?_, ?_, ?_, ?_⟩ <;> dsimp only <;>
       (first
         | linarith
         | (simp only [MOMENTUM_NEUTRAL_REDUCTION]
            linarith)))

lemma apply_sahm_early_warning_nn (w : AssetMap ℚ) (s : String) (sahm : Option ℚ)
    (h : NN w) : NN (apply_sahm_early_warning w s sahm) := by
  obtain ⟨h1, h2, h3, h4, h5, h6, h7, h8⟩ := h
  unfold apply_sahm_early_warning NN
  rcases sahm with _ | sa
  · dsimp only
    split_ifs <;> exact ⟨h1, h2, h3, h4, h5, h6, h7, h8⟩
  · dsimp only
    split_ifs with h0 hband hiwy
    · have hband' := hband
      unfold SAHM_EARLY_WARNING_LO SAHM_EARLY_WARNING_HI at hband'
      have e : (sa - SAHM_EARLY_WARNING_LO) /
          (SAHM_EARLY_WARNING_HI - SAHM_EARLY_WARNING_LO) * SAHM_REDUCTION_RATE =
          (sa - 35/100) * (8/3) := by
        unfold SAHM_EARLY_WARNING_LO SAHM_EARLY_WARNING_HI SAHM_REDUCTION_RATE
        ring
      have hq0 : 0 ≤ (sa - SAHM_EARLY_WARNING_LO) /
          (SAHM_EARLY_WARNING_HI - SAHM_EARLY_WARNING_LO) * SAHM_REDUCTION_RATE := by
        rw [e]
        nlinarith [hband'.1]
      have hq1 : (sa - SAHM_EARLY_WARNING_LO) /
          (SAHM_EARLY_WARNING_HI - SAHM_EARLY_WARNING_LO) * SAHM_REDUCTION_RATE ≤ 1 := by
        rw [e]
        nlinarith [hband'.2]
      refine ⟨?_, ?_, h3, h4, h5, h6, h7, h8⟩ <;> dsimp only
      · nlinarith [mul_nonneg h1 (sub_nonneg.mpr hq1)]
      · nlinarith [mul_nonneg h1 hq0]
    · exact ⟨h1, h2, h3, h4, h5, h6, h7, h8⟩
    · exact ⟨h1, h2, h3, h4, h5, h6, h7, h8⟩
    · exact ⟨h1, h2, h3, h4, h5, h6, h7, h8⟩

lemma apply_yield_curve_uninvert_protection_nn (w : AssetMap ℚ) (s : String)
    (yc : Option ℚ) (inv : Bool) (h : NN w) :
    NN (apply_yield_curve_uninvert_protection w s yc inv) := by
  obtain ⟨h1, h2, h3, h4, h5, h6, h7, h8⟩ := h
  unfold apply_yield_curve_uninvert_protection NN
  split_ifs with h0
  · rcases yc with _ | y
    · exact ⟨h1, h2, h3, h4, h5, h6, h7, h8⟩
    · dsimp only
      split_ifs <;> refine ⟨?_, ?_, ?_, ?_, ?_, ?_, ?_, ?_⟩ <;> dsimp only <;>
        (first
          | linarith
          | (simp only [YC_UNINVERT_REDUCTION]
             linarith))
  · exact ⟨h1, h2, h3, h4, h5, h6, h7, h8⟩

lemma apply_correlation_adjustment_nn (w : AssetMap ℚ) (s : String) (corr : Option ℚ)
    (h : NN w) : NN (apply_correlation_adjustment w s corr) := by
  obtain ⟨h1, h2, h3, h4, h5, h6, h7, h8⟩ := h
  unfold apply_correlation_adjustment NN
  split_ifs with h0
  · rcases corr with _ | c
    · exact ⟨h1, h2, h3, h4, h5, h6, h7, h8⟩
    · dsimp only
      split_ifs with hc hm
      · have hadj0 : 0 ≤ min ((c - CORR_MID_THRESHOLD) /
            (CORR_HIGH_THRESHOLD - CORR_MID_THRESHOLD)) 1 := by
          refine le_min (div_nonneg ?_ ?_) zero_le_one
          · unfold CORR_MID_THRESHOLD at hc ⊢
            linarith
          · unfold CORR_MID_THRESHOLD CORR_HIGH_THRESHOLD
            norm_num
        simp only [CORR_MAX_REALLOC] at hm ⊢
        refine ⟨h1, ?_, h3, h4, ?_, ?_, h7, h8⟩ <;> dsimp only <;> linarith
      · exact ⟨h1, h2, h3, h4, h5, h6, h7, h8⟩
      · exact ⟨h1, h2, h3, h4, h5, h6, h7, h8⟩
  · exact ⟨h1, h2, h3, h4, h5, h6, h7, h8⟩

lemma apply_vix_mean_reversion_nn (w : AssetMap ℚ) (s : String)
    (vix vpk : Option ℚ) (h : NN w) : NN (apply_vix_mean_reversion w s vix vpk) := by
  obtain ⟨h1, h2, h3, h4, h5, h6, h7, h8⟩ := h
  unfold apply_vix_mean_reversion NN
  split_ifs with h0
  · rcases vix with _ | v <;> rcases vpk with _ | pk <;>
      try exact ⟨h1, h2, h3, h4, h5, h6, h7, h8⟩
    dsimp only
    split_ifs <;> refine ⟨?_, ?_, ?_, ?_, ?_, ?_, ?_, ?_⟩ <;> dsimp only <;>
      (first
        | linarith
        | (simp only [VIX_MEAN_REVERSION_BOOST] at *
           linarith))
  · exact ⟨h1, h2, h3, h4, h5, h6, h7, h8⟩

lemma apply_trend_boost_nn (w : AssetMap ℚ) (s : String) (m : AssetMap (Option ℚ))
    (vix : Option ℚ) (h : NN w) : NN (apply_trend_boost w s m vix) := by
  obtain ⟨h1, h2, h3, h4, h5, h6, h7, h8⟩ := h
  unfold apply_trend_boost NN
  split_ifs with h0
  · exact ⟨h1, h2, h3, h4, h5, h6, h7, h8⟩
  · rcases vix with _ | v
    · exact ⟨h1, h2, h3, h4, h5, h6, h7, h8⟩
    · cases hmi : m.iwy
      · exact ⟨h1, h2, h3, h4, h5, h6, h7, h8⟩
      · dsimp only
        have ha := min_le_left w.wtmf BULL_IWY_BOOST
        have hb := min_le_left w.iwy (BEAR_WTMF_BOOST * (6/10))
        split_ifs <;> refine ⟨?_, ?_, ?_, ?_, ?_, ?_, ?_, ?_⟩ <;> dsimp only <;> linarith

lemma apply_value_rotation_nn (w : AssetMap ℚ) (s : String) (m : AssetMap (Option ℚ))
    (h : NN w) : NN (apply_value_rotation w s m) := by
  obtain ⟨h1, h2, h3, h4, h5, h6, h7, h8⟩ := h
  unfold apply_value_rotation NN
  split_ifs with h0
  · exact ⟨h1, h2, h3, h4, h5, h6, h7, h8⟩
  · cases hmi : m.iwy <;> cases hml : m.lvhi <;>
      try exact ⟨h1, h2, h3, h4, h5, h6, h7, h8⟩
    dsimp only
    have ha := min_le_left (w.iwy * (3/10)) VALUE_ROTATION_AMOUNT
    have hb := min_le_left (w.lvhi * (1/2)) VALUE_ROTATION_AMOUNT
    split_ifs <;> refine ⟨?_, ?_, ?_, ?_, ?_, ?_, ?_, ?_⟩ <;> dsimp only <;> linarith

lemma apply_market_breadth_adjustment_none (w : AssetMap ℚ) (s : String) :
    apply_market_breadth_adjustment w s none = w := by
  unfold apply_market_breadth_adjustment
  split_ifs <;> rfl

lemma vixSmoothTargets_nn (s : String) (vix : Option ℚ) (t : AssetMap ℚ)
    (h : NN t) : NN (vixSmoothTargets s vix t) := by
  obtain ⟨h1, h2, h3, h4, h5, h6, h7, h8⟩ := h
  unfold vixSmoothTargets NN
  rcases vix with _ | v
  · exact ⟨h1, h2, h3, h4, h5, h6, h7, h8⟩
  · dsimp only
    split_ifs with hc
    · have hr1 : min ((v - VIX_SMOOTH_START) / (VIX_SMOOTH_END - VIX_SMOOTH_START) *
          VIX_MAX_REDUCTION) VIX_MAX_REDUCTION ≤ 1 := by
        refine le_trans (min_le_right _ _) ?_
        unfold VIX_MAX_REDUCTION
        norm_num
      have hr0 : 0 ≤ min ((v - VIX_SMOOTH_START) / (VIX_SMOOTH_END - VIX_SMOOTH_START) *
          VIX_MAX_REDUCTION) VIX_MAX_REDUCTION := by
        refine le_min ?_ ?_
        · have hv := hc.2
          unfold VIX_SMOOTH_START at hv
          unfold VIX_SMOOTH_START VIX_SMOOTH_END VIX_MAX_REDUCTION
          have e : (v - 18) / (32 - 18) * (35/100) = (v - 18) * (1/40) := by ring
          rw [e]
          linarith
        · unfold VIX_MAX_REDUCTION
          norm_num
      refine ⟨?_, ?_, h3, h4, h5, h6, h7, h8⟩ <;> dsimp only
      · nlinarith [mul_nonneg h1 (sub_nonneg.mpr hr1)]
      · nlinarith [mul_nonneg h1 hr0]
    · exact ⟨h1, h2, h3, h4, h5, h6, h7, h8⟩

lemma get_target_percentages_nn (s : String) (gb vr : Bool) (tr : AssetMap Bool)
    (vix yc sahm corr : Option ℚ) (mom : AssetMap (Option ℚ)) (ycInv : Bool)
    (vpk : Option ℚ) :
    NN (get_target_percentages s gb vr tr vix yc sahm corr mom ycInv vpk none none) := by
  unfold get_target_percentages
  dsimp only
  rw [apply_market_breadth_adjustment_none]
  exact apply_value_rotation_nn _ _ _ (apply_trend_boost_nn _ _ _ _
    (apply_vix_mean_reversion_nn _ _ _ _ (apply_correlation_adjustment_nn _ _ _
      (apply_yield_curve_uninvert_protection_nn _ _ _ _ (apply_sahm_early_warning_nn _ _ _
        (apply_momentum_intensity_nn _ _ _ (apply_gold_filter_nn _ _
          (apply_iwy_safety_valve_nn _ _ _ _ (apply_trend_filters_nn _ _ _
            (apply_yield_curve_guard_nn _ _ _ (apply_vix_adjustments_nn _ _ _
              (base_allocation_nn s vr vix))))))))))))

lemma half_abs_nonneg (a b : AssetMap ℚ) (x y : ℚ) :
    0 ≤ (absDiffSum a b + |x - y|) / 2 := by
  unfold absDiffSum
  positivity

lemma ite_nonneg_zero (c : Prop) [Decidable c] (x : ℚ) (h : 0 ≤ x) :
    0 ≤ if c then x else 0 := by
  split_ifs with hc
  · exact h
  · exact le_refl 0

/-- On a day whose carried state holds previous targets, the day's turnover is
either zero or a half-sum of absolute values, hence non-negative. -/
lemma stepCore_turnover_nonneg_some (sqrtA : ℚ → ℚ) (cfg : BTConfig) (i decIdx : ℕ)
    (inp : DayInputs) (st : SimState) (sConf : Option String) (dc : Bool)
    (pw : AssetMap ℚ) (h : st.prevTargets = some pw) :
    0 ≤ (stepCore sqrtA cfg i decIdx inp st sConf dc).2.turnover := by
  rcases st with ⟨cv, hr, pk, sl, cf, tf, td, it, pt, pr, pd, pri⟩
  dsimp only at h
  subst h
  unfold stepCore
  dsimp only
  exact ite_nonneg_zero _ _ (half_abs_nonneg _ _ _ _)

/-- On the first simulated day the state is `initState` and the turnover is
the sum of the (non-negative) day-one target weights. -/
lemma stepCore_turnover_init (sqrtA : ℚ → ℚ) (cfg : BTConfig) (i decIdx : ℕ)
    (inp : DayInputs) (sConf : Option String) (dc : Bool) :
    0 ≤ (stepCore sqrtA cfg i decIdx inp (initState cfg) sConf dc).2.turnover := by
  cases dc <;>
    (unfold stepCore initState
     dsimp only
     apply sumW_nonneg
     simp only [Bool.false_eq_true, not_false_iff, sub_self, zero_div,
       ite_self, if_true, if_false, true_and, Bool.and_false, Bool.false_or,
       Option.isNone_none, Bool.true_or, Bool.or_true]
     norm_num [DRAWDOWN_STOP_LOSS, VOL_LOOKBACK]
     exact vixSmoothTargets_nn _ _ _ (get_target_percentages_nn _ _ _ _ _ _ _ _ _ _ _))

lemma step_turnover (sqrtA : ℚ → ℚ) (cfg : BTConfig) (wu : List (AssetMap ℚ))
    (rows : List StateRow) (i : ℕ) (st : SimState) :
    (step sqrtA cfg wu rows i st).2.turnover =
      (stepCore sqrtA cfg i (st.prevRowIdx.getD i)
        (dayInputsAt cfg wu rows i (st.prevRowIdx.getD i)) st
        ((confirmStep st.confirm
          ((rows.getD (st.prevRowIdx.getD i) defaultStateRow).state)).1.confirmed)
        ((confirmStep st.confirm
          ((rows.getD (st.prevRowIdx.getD i) defaultStateRow).state)).2)).2.turnover := rfl

lemma stateAfter_succ_prevTargets (sqrtA : ℚ → ℚ) (cfg : BTConfig)
    (wu : List (AssetMap ℚ)) (rows : List StateRow) (i : ℕ) :
    ∃ pw, (stateAfter sqrtA cfg wu rows (i + 1)).prevTargets = some pw :=
  ⟨_, rfl⟩

/-- Claim C8 (amended).  In every backtest run the per-date turnover is
non-negative: on the first simulated day it is the sum of the day's
non-negative target weights, and on every later day it is either zero (no
rebalance) or half a sum of absolute weight differences including the cash
leg.  The monotonicity half of the original claim is false — see the
counterexample — because the transaction cost feeds back into the NAV path
and hence into the stop-loss state. -/
theorem C8_turnover_nonneg (sqrtA : ℚ → ℚ) (cfg : BTConfig) (wu : List (AssetMap ℚ))
    (rows : List StateRow) (i : ℕ) :
    0 ≤ (dayRecAt sqrtA cfg wu rows i).turnover := by
  cases i with
  | zero =>
    unfold dayRecAt
    rw [step_turnover]
    exact stepCore_turnover_init sqrtA cfg 0 _ _ _ _
  | succ n =>
    unfold dayRecAt
    rw [step_turnover]
    obtain ⟨pw, hpw⟩ := stateAfter_succ_prevTargets sqrtA cfg wu rows n
    exact stepCore_turnover_nonneg_some sqrtA cfg (n + 1) _ _ _ _ _ pw hpw

lemma c8_targets : get_target_percentages "NEUTRAL" false false
    ⟨false, false, false, false, false, false, false, false⟩ none none none none
    ⟨none, none, none, none, none, none, none, none⟩ false none none none =
    ⟨68/100, 0, 5/100, 5/100, 5/100, 3/100, 7/100, 7/100⟩ := by
  simp [get_target_percentages, base_allocation, apply_vix_adjustments,
    apply_yield_curve_guard, apply_trend_filters, trendFilterG3b, trendFilterLvhi,
    trendFilterMbh, trendFilterGsd, trendFilterSrt, trendFilterAjbu, trendDest,
    apply_iwy_safety_valve, apply_gold_filter, apply_momentum_intensity,
    apply_sahm_early_warning, apply_yield_curve_uninvert_protection,
    apply_correlation_adjustment, apply_vix_mean_reversion,
    apply_market_breadth_adjustment, apply_trend_boost, apply_value_rotation, momEmpty]

lemma c8_trends0 : trendsAt [] c8rows 200 0 =
    ⟨false, false, false, false, false, false, false, false⟩ := by
  simp [trendsAt, trendBearAt, maAt, priceHist, c8rows, listMean]

lemma c8_trends1 : trendsAt [] c8rows 200 1 =
    ⟨false, false, false, false, false, false, false, false⟩ := by
  simp [trendsAt, trendBearAt, maAt, priceHist, c8rows, listMean]

lemma c8_mom0 : momentumScoresAt [] c8rows 200 0 =
    ⟨none, none, none, none, none, none, none, none⟩ := by
  simp [momentumScoresAt, momentumAt, maAt, priceHist, c8rows, listMean]

lemma c8_mom1 : momentumScoresAt [] c8rows 200 1 =
    ⟨none, none, none, none, none, none, none, none⟩ := by
  simp [momentumScoresAt, momentumAt, maAt, priceHist, c8rows, listMean]

lemma c8_peak0 : vixPeakAt c8rows 0 = none := by
  simp [vixPeakAt, c8rows, qmax?]

lemma c8_peak1 : vixPeakAt c8rows 1 = none := by
  simp [vixPeakAt, c8rows, qmax?]

lemma c8_ycvals0 :
    ((c8rows.take (0 + 1)).drop (0 - 252)).filterMap (fun r => r.yieldCurve) = [] := by
  simp [c8rows]

lemma c8_ycvals1 :
    ((c8rows.take (1 + 1)).drop (1 - 252)).filterMap (fun r => r.yieldCurve) = [] := by
  simp [c8rows]

lemma c8_inv0 : ycRecentlyInvertedAt c8rows 0 = false := by
  unfold ycRecentlyInvertedAt
  rw [c8_ycvals0]
  rfl

lemma c8_inv1 : ycRecentlyInvertedAt c8rows 1 = false := by
  unfold ycRecentlyInvertedAt
  rw [c8_ycvals1]
  rfl

lemma c8_rets0 : returnsAt c8rows 0 = ⟨0, 0, 0, 0, 0, 0, 0, 0⟩ := by
  simp [returnsAt, zeroW]

lemma c8_rets1 : returnsAt c8rows 1 =
    ⟨-113/1000, -113/1000, -113/1000, -113/1000, -113/1000, -113/1000, -113/1000,
     -113/1000⟩ := by
  simp [returnsAt, c8rows]
  norm_num

lemma c8_rets2 : returnsAt c8rows 2 =
    ⟨-1/2, -1/2, -1/2, -1/2, -1/2, -1/2, -1/2, -1/2⟩ := by
  simp [returnsAt, c8rows]
  norm_num

lemma c8_inp0 (b : ℚ) : dayInputsAt ⟨10000, 200, "Daily", b⟩ [] c8rows 0 0 =
    ⟨⟨0, 1⟩, false, false, none, none, none, none,
     ⟨false, false, false, false, false, false, false, false⟩,
     ⟨none, none, none, none, none, none, none, none⟩, none, false,
     ⟨0, 0, 0, 0, 0, 0, 0, 0⟩⟩ := by
  unfold dayInputsAt
  dsimp only
  rw [c8_trends0, c8_mom0, c8_peak0, c8_inv0, c8_rets0]
  simp [c8rows, defaultStateRow]

lemma c8_inp1 (b : ℚ) : dayInputsAt ⟨10000, 200, "Daily", b⟩ [] c8rows 1 0 =
    ⟨⟨0, 1⟩, false, false, none, none, none, none,
     ⟨false, false, false, false, false, false, false, false⟩,
     ⟨none, none, none, none, none, none, none, none⟩, none, false,
     ⟨-113/1000, -113/1000, -113/1000, -113/1000, -113/1000, -113/1000, -113/1000,
      -113/1000⟩⟩ := by
  unfold dayInputsAt
  dsimp only
  rw [c8_trends0, c8_mom0, c8_peak0, c8_inv0, c8_rets1]
  simp [c8rows, defaultStateRow]

lemma c8_inp2 (b : ℚ) : dayInputsAt ⟨10000, 200, "Daily", b⟩ [] c8rows 2 1 =
    ⟨⟨0, 1⟩, false, false, none, none, none, none,
     ⟨false, false, false, false, false, false, false, false⟩,
     ⟨none, none, none, none, none, none, none, none⟩, none, false,
     ⟨-1/2, -1/2, -1/2, -1/2, -1/2, -1/2, -1/2, -1/2⟩⟩ := by
  unfold dayInputsAt
  dsimp only
  rw [c8_trends1, c8_mom1, c8_peak1, c8_inv1, c8_rets2]
  simp [c8rows, defaultStateRow]

lemma c8_row0_state : (c8rows.getD 0 defaultStateRow).state = "NEUTRAL" := rfl

lemma c8_row1_state : (c8rows.getD 1 defaultStateRow).state = "NEUTRAL" := rfl

set_option maxRecDepth 8000 in
set_option maxHeartbeats 1000000 in
lemma c8_A1 : stateAfter qSqrt ⟨10000, 200, "Daily", 0⟩ [] c8rows 1 =
    ⟨10000, [0], 10000, false, ⟨some "NEUTRAL", none, 0⟩, none, 0, false,
     some ⟨68/100, 0, 5/100, 5/100, 5/100, 3/100, 7/100, 7/100⟩,
     some ⟨0, 0, 0, 0, 0, 0, 0, 0⟩, some ⟨0, 1⟩, some 0⟩ := by
  rw [show (1 : ℕ) = 0 + 1 from rfl, stateAfter_succ]
  simp [stateAfter, initState, step, stepCore, confirmStep, c8_inp0, c8_targets,
    c8_row0_state, vixSmoothTargets, is_rebalance_day, mapW, zipW, sumW,
    dotW, absDiffSum, maxAbsDiffGt, slStageFor, STOP_LOSS_RECOVERY_STAGES,
    VOL_LOOKBACK, DRAWDOWN_STOP_LOSS, DRAWDOWN_REDUCE_RATIO, REBALANCE_THRESHOLD]
  norm_num [c8rows, defaultStateRow, c8_targets]

set_option maxRecDepth 8000 in
set_option maxHeartbeats 1000000 in
lemma c8_B1 : stateAfter qSqrt ⟨10000, 200, "Daily", 200⟩ [] c8rows 1 =
    ⟨9800, [-1/50], 10000, false, ⟨some "NEUTRAL", none, 0⟩, none, 0, false,
     some ⟨68/100, 0, 5/100, 5/100, 5/100, 3/100, 7/100, 7/100⟩,
     some ⟨0, 0, 0, 0, 0, 0, 0, 0⟩, some ⟨0, 1⟩, some 0⟩ := by
  rw [show (1 : ℕ) = 0 + 1 from rfl, stateAfter_succ]
  simp [stateAfter, initState, step, stepCore, confirmStep, c8_inp0, c8_targets,
    c8_row0_state, vixSmoothTargets, is_rebalance_day, mapW, zipW, sumW,
    dotW, absDiffSum, maxAbsDiffGt, slStageFor, STOP_LOSS_RECOVERY_STAGES,
    VOL_LOOKBACK, DRAWDOWN_STOP_LOSS, DRAWDOWN_REDUCE_RATIO, REBALANCE_THRESHOLD]
  norm_num [c8rows, defaultStateRow, c8_targets]

set_option maxRecDepth 8000 in
set_option maxHeartbeats 1000000 in
lemma c8_A2 : stateAfter qSqrt ⟨10000, 200, "Daily", 0⟩ [] c8rows 2 =
    ⟨8870, [-113/1000, 0], 10000, false, ⟨some "NEUTRAL", none, 0⟩, none, 0, false,
     some ⟨68/100, 0, 5/100, 5/100, 5/100, 3/100, 7/100, 7/100⟩,
     some ⟨-113/1000, -113/1000, -113/1000, -113/1000, -113/1000, -113/1000,
       -113/1000, -113/1000⟩, some ⟨0, 1⟩, some 1⟩ := by
  rw [show (2 : ℕ) = 1 + 1 from rfl, stateAfter_succ, c8_A1]
  simp [step, stepCore, confirmStep, c8_inp1, c8_targets,
    c8_row0_state, vixSmoothTargets, is_rebalance_day, mapW, zipW, sumW,
    dotW, absDiffSum, maxAbsDiffGt, slStageFor, STOP_LOSS_RECOVERY_STAGES,
    VOL_LOOKBACK, DRAWDOWN_STOP_LOSS, DRAWDOWN_REDUCE_RATIO, REBALANCE_THRESHOLD]
  norm_num [c8rows, defaultStateRow, c8_targets]

set_option maxRecDepth 8000 in
set_option maxHeartbeats 1000000 in
lemma c8_B2 : stateAfter qSqrt ⟨10000, 200, "Daily", 200⟩ [] c8rows 2 =
    ⟨43463/5, [-113/1000, -1/50], 10000, false, ⟨some "NEUTRAL", none, 0⟩, none, 0,
     false, some ⟨68/100, 0, 5/100, 5/100, 5/100, 3/100, 7/100, 7/100⟩,
     some ⟨-113/1000, -113/1000, -113/1000, -113/1000, -113/1000, -113/1000,
       -113/1000, -113/1000⟩, some ⟨0, 1⟩, some 1⟩ := by
  rw [show (2 : ℕ) = 1 + 1 from rfl, stateAfter_succ, c8_B1]
  simp [step, stepCore, confirmStep, c8_inp1, c8_targets,
    c8_row0_state, vixSmoothTargets, is_rebalance_day, mapW, zipW, sumW,
    dotW, absDiffSum, maxAbsDiffGt, slStageFor, STOP_LOSS_RECOVERY_STAGES,
    VOL_LOOKBACK, DRAWDOWN_STOP_LOSS, DRAWDOWN_REDUCE_RATIO, REBALANCE_THRESHOLD]
  norm_num [c8rows, defaultStateRow, c8_targets]

set_option maxRecDepth 8000 in
set_option maxHeartbeats 1000000 in
lemma c8_A3val : (stateAfter qSqrt ⟨10000, 200, "Daily", 0⟩ [] c8rows 3).curVal =
    4435 := by
  rw [show (3 : ℕ) = 2 + 1 from rfl, stateAfter_succ, c8_A2]
  simp [step, stepCore, confirmStep, c8_inp2, c8_targets,
    c8_row1_state, vixSmoothTargets, is_rebalance_day, mapW, zipW, sumW,
    dotW, absDiffSum, maxAbsDiffGt, slStageFor, STOP_LOSS_RECOVERY_STAGES,
    VOL_LOOKBACK, DRAWDOWN_STOP_LOSS, DRAWDOWN_REDUCE_RATIO, REBALANCE_THRESHOLD]
  norm_num [c8rows, defaultStateRow, c8_targets]

set_option maxRecDepth 8000 in
set_option maxHeartbeats 1000000 in
lemma c8_B3val : (stateAfter qSqrt ⟨10000, 200, "Daily", 200⟩ [] c8rows 3).curVal =
    15081661/2500 := by
  rw [show (3 : ℕ) = 2 + 1 from rfl, stateAfter_succ, c8_B2]
  simp [step, stepCore, confirmStep, c8_inp2, c8_targets,
    c8_row1_state, vixSmoothTargets, is_rebalance_day, mapW, zipW, sumW,
    dotW, absDiffSum, maxAbsDiffGt, slStageFor, STOP_LOSS_RECOVERY_STAGES,
    VOL_LOOKBACK, DRAWDOWN_STOP_LOSS, DRAWDOWN_REDUCE_RATIO, REBALANCE_THRESHOLD]
  norm_num [c8rows, defaultStateRow, c8_targets]

set_option maxRecDepth 8000 in
set_option maxHeartbeats 1000000 in
lemma c8_turnA0 : (dayRecAt qSqrt ⟨10000, 200, "Daily", 0⟩ [] c8rows 0).turnover =
    1 := by
  unfold dayRecAt
  simp [stateAfter, initState, step, stepCore, confirmStep, c8_inp0, c8_targets,
    c8_row0_state, vixSmoothTargets, is_rebalance_day, mapW, zipW, sumW,
    dotW, absDiffSum, maxAbsDiffGt, slStageFor, STOP_LOSS_RECOVERY_STAGES,
    VOL_LOOKBACK, DRAWDOWN_STOP_LOSS, DRAWDOWN_REDUCE_RATIO, REBALANCE_THRESHOLD]
  norm_num [c8rows, defaultStateRow, c8_targets]

/-- Claim C8, counterexample to cost monotonicity.  On a concrete three-day
run the raw 0-bps backtest rides the −50% crash at full stop-loss-free
exposure and ends at NAV 4435, while the 200-bps run — identical except for
the higher transaction cost, whose day-one deduction pushes the drawdown past
the −12% stop-loss line one day earlier — ends strictly higher at
6032.6644; day one's turnover is 1, not zero, so the claimed
equal-only-under-zero-turnover escape does not apply. -/
theorem C8_counterexample :
    finalNav qSqrt ⟨10000, 200, "Daily", 0⟩ [] c8rows <
      finalNav qSqrt ⟨10000, 200, "Daily", 200⟩ [] c8rows ∧
    (0 : ℚ) < 200 ∧
    (dayRecAt qSqrt ⟨10000, 200, "Daily", 0⟩ [] c8rows 0).turnover = 1 := by
  refine ⟨?_, by norm_num, c8_turnA0⟩
  unfold finalNav
  rw [show List.length c8rows = 3 from rfl, c8_A3val, c8_B3val]
  norm_num

end Strategy
